import Mathlib

/-!
Shallow embedding of `airflow/configuration.py` (class `AirflowConfigParser`
and its module-level helpers), restricted to the logic the specification
claims are about: the precedence resolver `get`, the environment / command /
secret source adapters, the validator (`_validate`,
`_validate_config_dependencies`), the typed boolean accessor, and the
exporter path `getsection` / `write`.

Modelling conventions:
* `os.environ` is an association list of variable names to string values.
* The file-backed store (`self._sections` of the `ConfigParser` base class)
  and the default table (`self.airflow_defaults._sections`) are association
  lists section-name -> (key -> value).  `AirflowConfigParser.optionxform`
  is the identity, so file-store keys are matched verbatim;
  `airflow_defaults` is a vanilla `ConfigParser`, whose `optionxform`
  lower-cases, so its option lookup compares keys case-insensitively
  (the vanilla parser lower-cases keys both when storing via `read_string`
  and when looking up).
* External collaborators are oracle functions carried in the state:
  `cmdRunner` models `subprocess` (returncode, stdout, stderr),
  `secretBackend` models the secret-backend client, `interp` models one pass
  of `os.path.expanduser(os.path.expandvars(.))`, `floatParse` models Python
  float parsing (`some canon` means the string parses as a float whose
  `str()` form is `canon`), and `startMethods` models
  `multiprocessing.get_all_start_methods()`.
* `%`-interpolation of the `ConfigParser` base class is modelled as the
  identity (all concrete values used in theorems are free of `%`), and the
  special `DEFAULT` section is modelled as empty.
* Exceptions are an explicit error type; observable side conditions
  (command execution, secret-backend calls, warnings, log lines) are an
  explicit effect trace.
-/

set_option maxHeartbeats 1000000

namespace AirflowCfg

/-- Errors raised by the modelled code: the section/key-not-found
`AirflowConfigException`, the `configparser` `NoSectionError` and
`NoOptionError`, the command-failure `AirflowConfigException` raised by
`run_command`, the `ValueError` of `getboolean`, the dependency-validation
`AirflowConfigException`s, and the Python `KeyError` / `TypeError` that
`getsection` can hit. -/
inductive ConfigError where
  | notFound (s k : String)
  | noSection (s : String)
  | noOption (s k : String)
  | cmdFailed (cmd : String) (returncode : Int) (output stderr : String)
  | notBoolean (s k val : String)
  | dependency (msg : String)
  | keyError (s : String)
  | typeError
  deriving DecidableEq

/-- Observable side conditions of a resolution or validation run. -/
inductive Effect where
  | ranCommand (cmd : String)
  | secretBackendCall (path : String)
  | deprecationWarning (s k oldName : String)
  | futureWarning (s name oldVal newVal version : String)
  | logMissingWarning (s k : String)
  deriving DecidableEq

/-- The fallback keyword argument of `get`: absent, the `_UNSET` sentinel,
Python `None`, or a string value. -/
inductive Fallback where
  | absent
  | unset
  | pyNone
  | str (f : String)
  deriving DecidableEq

/-- State of one `AirflowConfigParser` instance together with its process
environment and external collaborators. -/
structure ConfigState where
  env : List (String × String)
  sections : List (String × List (String × String))
  airflow_defaults : List (String × List (String × String))
  cmdRunner : String → Int × String × String
  secretBackend : String → Option String
  interp : String → String
  fuel : Nat
  floatParse : String → Option String
  startMethods : List String
  is_validated : Bool

/-- Computation result paired with the trace of observable effects. -/
abbrev EffM (α : Type) := Except ConfigError α × List Effect

/-- Decidable equality of `Except` results, needed to evaluate concrete
runs. -/
def exceptDecEq {ε α : Type} [DecidableEq ε] [DecidableEq α] :
    DecidableEq (Except ε α)
  | Except.error e1, Except.error e2 =>
    if h : e1 = e2 then isTrue (congrArg Except.error h)
    else isFalse (fun hc => h (Except.error.inj hc))
  | Except.error _, Except.ok _ => isFalse (fun hc => Except.noConfusion hc)
  | Except.ok _, Except.error _ => isFalse (fun hc => Except.noConfusion hc)
  | Except.ok a, Except.ok b =>
    if h : a = b then isTrue (congrArg Except.ok h)
    else isFalse (fun hc => h (Except.ok.inj hc))

instance {ε α : Type} [DecidableEq ε] [DecidableEq α] : DecidableEq (Except ε α) :=
  exceptDecEq

def effOk {α : Type} (a : α) : EffM α := (Except.ok a, [])

def effErr {α : Type} (e : ConfigError) : EffM α := (Except.error e, [])

/-- Prepend already-accumulated effects to a computation result. -/
def withEffs {α : Type} (effs : List Effect) (r : EffM α) : EffM α :=
  (r.1, effs ++ r.2)

@[simp] theorem withEffs_fst {α : Type} (effs : List Effect) (r : EffM α) :
    (withEffs effs r).1 = r.1 := rfl

@[simp] theorem withEffs_snd {α : Type} (effs : List Effect) (r : EffM α) :
    (withEffs effs r).2 = effs ++ r.2 := rfl

/-- Association-list lookup with exact (string-equality) key matching. -/
def alookup {α : Type} : List (String × α) → String → Option α
  | [], _ => none
  | (k0, v) :: t, k => if k0 = k then some v else alookup t k

@[simp] theorem alookup_nil {α : Type} (k : String) :
    alookup ([] : List (String × α)) k = none := rfl

theorem alookup_cons {α : Type} (k0 k : String) (v : α) (t : List (String × α)) :
    alookup ((k0, v) :: t) k = if k0 = k then some v else alookup t k := rfl

/-- Association-list update with Python-dict semantics: replace in place if
the key is present, append otherwise. -/
def assocSet {α : Type} : List (String × α) → String → α → List (String × α)
  | [], k, v => [(k, v)]
  | (k0, v0) :: t, k, v =>
    if k0 = k then (k0, v) :: t else (k0, v0) :: assocSet t k v

/-- Python `dict.update`: apply every binding of `upds` to `base` in order. -/
def dictUpdate {α : Type} (base upds : List (String × α)) : List (String × α) :=
  upds.foldl (fun acc p => assocSet acc p.1 p.2) base

/-- Python truthiness of an optional string: `None` and `""` are falsy. -/
def truthy : Option String → Bool
  | none => false
  | some v => v ≠ ""

/-! Models of the Python string builtins the source uses (`lower`, `upper`,
`strip`, substring containment, `startswith` / `endswith`, `replace`,
slicing, joining, comparison).  They are implemented over the character
list of the string so that concrete runs reduce inside the kernel. -/

/-- Python `str.lower()` (ASCII, as used by the source). -/
def strLower (s : String) : String := ⟨s.data.map Char.toLower⟩

/-- Python `str.upper()` (ASCII, as used by the source). -/
def strUpper (s : String) : String := ⟨s.data.map Char.toUpper⟩

/-- Python `str.strip()`. -/
def strTrim (s : String) : String :=
  ⟨((s.data.dropWhile Char.isWhitespace).reverse.dropWhile Char.isWhitespace).reverse⟩

/-- Prefix test on character lists. -/
def isPrefixList : List Char → List Char → Bool
  | [], _ => true
  | _ :: _, [] => false
  | a :: as, b :: bs => a == b && isPrefixList as bs

/-- Occurrence scan for the substring test. -/
def containsSubAux (sub : List Char) : List Char → Bool
  | [] => isPrefixList sub []
  | c :: rest => isPrefixList sub (c :: rest) || containsSubAux sub rest

/-- Python `str.startswith`. -/
def strStartsWith (s p : String) : Bool := isPrefixList p.data s.data

/-- Python `str.endswith`. -/
def strEndsWith (s p : String) : Bool := isPrefixList p.data.reverse s.data.reverse

/-- Python slicing `s[:-n]`. -/
def strDropRight (s : String) (n : Nat) : String :=
  ⟨s.data.take (s.data.length - n)⟩

/-- Replace-all scan with explicit fuel (the pattern is never empty at the
call sites). -/
def replaceAllAux (pat repl : List Char) : Nat → List Char → List Char
  | 0, l => l
  | Nat.succ n, l =>
    match l with
    | [] => []
    | c :: rest =>
      if isPrefixList pat (c :: rest) then
        repl ++ replaceAllAux pat repl n (List.drop pat.length (c :: rest))
      else c :: replaceAllAux pat repl n rest

/-- Python `str.replace` (all occurrences). -/
def strReplace (s pat repl : String) : String :=
  ⟨replaceAllAux pat.data repl.data (s.data.length + 1) s.data⟩

/-- Lexicographic string comparison (Python `<=` over code points). -/
def charListLe : List Char → List Char → Bool
  | [], _ => true
  | _ :: _, [] => false
  | a :: as, b :: bs => if a == b then charListLe as bs else decide (a < b)

/-- Python string `<=`. -/
def strLe (a b : String) : Bool := charListLe a.data b.data

/-- Python `", ".join(...)`. -/
def strJoin (sep : String) : List String → String
  | [] => ""
  | [x] => x
  | x :: y :: t => x ++ sep ++ strJoin sep (y :: t)

/-- Numeric value of a digit run. -/
def digitsVal (l : List Char) : Nat :=
  l.foldl (fun acc c => acc * 10 + (c.toNat - 48)) 0

/-- Python `"needle" in haystack` substring test. -/
def strContains (h sub : String) : Bool :=
  containsSubAux sub.data h.data

/-- The `expand_env_var` fixed-point loop body, with explicit fuel standing
for the (assumed finite) number of interpolation passes the Python
`while True` loop performs. -/
def expandLoop (interp : String → String) : Nat → String → String
  | 0, s => s
  | n + 1, s =>
    let i := interp s
    if i = s then i else expandLoop interp n i

/-- Model of `expand_env_var`: falsy input is returned unchanged, otherwise
`expanduser`/`expandvars` are iterated to a fixed point. -/
def expand_env_var (st : ConfigState) (v : String) : String :=
  if v = "" then v else expandLoop st.interp st.fuel v

theorem expand_env_var_fixed (st : ConfigState) (v : String)
    (h : st.interp v = v) : expand_env_var st v = v := by
  unfold expand_env_var
  by_cases hv : v = ""
  · simp [hv]
  · simp only [hv, if_false]
    cases hf : st.fuel with
    | zero => rfl
    | succ n => simp [expandLoop, h]

/-- Model of `run_command`: consult the command-runner collaborator; a
non-zero exit status raises `AirflowConfigException`, otherwise stdout is
returned.  Either way a command execution is recorded. -/
def run_command (st : ConfigState) (cmd : String) : EffM String :=
  let r := st.cmdRunner cmd
  if r.1 = 0 then (Except.ok r.2.1, [Effect.ranCommand cmd])
  else (Except.error (ConfigError.cmdFailed cmd r.1 r.2.1 r.2.2), [Effect.ranCommand cmd])

/-- Model of `_get_config_value_from_secret_backend`. -/
def get_config_value_from_secret_backend (st : ConfigState) (path : String) :
    EffM (Option String) :=
  (Except.ok (st.secretBackend path), [Effect.secretBackendCall path])

/-- `sensitive_config_values` of `AirflowConfigParser`. -/
def sensitive_config_values : List (String × String) :=
  [("core", "sql_alchemy_conn"),
   ("core", "fernet_key"),
   ("celery", "broker_url"),
   ("celery", "flower_basic_auth"),
   ("celery", "result_backend"),
   ("celery", "celery_result_backend"),
   ("atlas", "password"),
   ("smtp", "smtp_password"),
   ("ldap", "bind_password"),
   ("kubernetes", "git_password")]

/-- Membership test `(section, key) in self.sensitive_config_values`. -/
def isSensitive (s k : String) : Bool :=
  sensitive_config_values.any (fun p => p.1 == s && p.2 == k)

/-- `deprecated_options` of `AirflowConfigParser`: section -> new key -> old key. -/
def deprecated_options_table : List (String × List (String × String)) :=
  [("celery",
    [("worker_concurrency", "celeryd_concurrency"),
     ("result_backend", "celery_result_backend"),
     ("broker_url", "celery_broker_url"),
     ("ssl_active", "celery_ssl_active"),
     ("ssl_cert", "celery_ssl_cert"),
     ("ssl_key", "celery_ssl_key")]),
   ("elasticsearch",
    [("host", "elasticsearch_host"),
     ("log_id_template", "elasticsearch_log_id_template"),
     ("end_of_log_mark", "elasticsearch_end_of_log_mark"),
     ("frontend", "elasticsearch_frontend"),
     ("write_stdout", "elasticsearch_write_stdout"),
     ("json_format", "elasticsearch_json_format"),
     ("json_fields", "elasticsearch_json_fields")])]

/-- `self.deprecated_options.get(section, {}).get(key, None)`. -/
def deprecated_options (s k : String) : Option String :=
  match alookup deprecated_options_table s with
  | none => none
  | some m => alookup m k

/-- `deprecated_values` of `AirflowConfigParser`:
section -> key -> (old, replacement, by_version). -/
def deprecated_values : List (String × List (String × (String × String × String))) :=
  [("core", [("task_runner", ("BashTaskRunner", "StandardTaskRunner", "2.0"))])]

/-- `_env_var_name`. -/
def env_var_name (s k : String) : String :=
  "AIRFLOW__" ++ strUpper s ++ "__" ++ strUpper k

/-- The `_SECRET` arm of `_get_env_var_option` (reached when neither the
plain variable nor an honoured `_CMD` variable produced a value). -/
def env_secret_branch (st : ConfigState) (s k ev : String) : EffM (Option String) :=
  match alookup st.env (ev ++ "_SECRET") with
  | some path =>
    if isSensitive s k then get_config_value_from_secret_backend st path
    else effOk none
  | none => effOk none

/-- Model of `_get_env_var_option`: plain `AIRFLOW__SECTION__KEY` variable
first (environment-expanded), then the `_CMD` variable (honoured only for
sensitive identities, executed via `run_command`), then the `_SECRET`
variable (honoured only for sensitive identities). -/
def get_env_var_option (st : ConfigState) (s k : String) : EffM (Option String) :=
  let ev := env_var_name s k
  match alookup st.env ev with
  | some v => effOk (some (expand_env_var st v))
  | none =>
    match alookup st.env (ev ++ "_CMD") with
    | some cmd =>
      if isSensitive s k then
        match run_command st cmd with
        | (Except.error e, effs) => (Except.error e, effs)
        | (Except.ok out, effs) => (Except.ok (some out), effs)
      else env_secret_branch st s k ev
    | none => env_secret_branch st s k ev

/-- `ConfigParser.has_option` on the file-backed store (exact key matching,
`NoSectionError` when the section is absent; the `DEFAULT`-section arm is
modelled with an empty defaults dict). -/
def super_has_option (st : ConfigState) (s k : String) : Except ConfigError Bool :=
  if s = "" then Except.ok false
  else
    match alookup st.sections s with
    | none => Except.error (ConfigError.noSection s)
    | some sect => Except.ok (alookup sect k).isSome

/-- `ConfigParser.get` on the file-backed store (called under a successful
`has_option`, so the fallback keyword is irrelevant here). -/
def super_get (st : ConfigState) (s k : String) : Except ConfigError String :=
  match alookup st.sections s with
  | none => Except.error (ConfigError.noSection s)
  | some sect =>
    match alookup sect k with
    | none => Except.error (ConfigError.noOption s k)
    | some v => Except.ok v

/-- Option lookup of the vanilla `ConfigParser` holding the defaults: keys
are compared case-insensitively because `optionxform` lower-cases both the
stored and the queried key. -/
def defaultsOptionLookup (sect : List (String × String)) (k : String) : Option String :=
  (sect.find? (fun p => strLower p.1 == strLower k)).map (fun p => p.2)

/-- `has_option` of the vanilla defaults parser. -/
def defaults_has_option (st : ConfigState) (s k : String) : Except ConfigError Bool :=
  if s = "" then Except.ok false
  else
    match alookup st.airflow_defaults s with
    | none => Except.error (ConfigError.noSection s)
    | some sect => Except.ok (defaultsOptionLookup sect k).isSome

/-- `get` of the vanilla defaults parser with a fallback keyword: a missing
section or option raises unless a usable fallback was supplied. -/
def defaults_get (st : ConfigState) (s k : String) (fb : Fallback) :
    Except ConfigError (Option String) :=
  match alookup st.airflow_defaults s with
  | none =>
    match fb with
    | Fallback.absent => Except.error (ConfigError.noSection s)
    | Fallback.unset => Except.error (ConfigError.noSection s)
    | Fallback.pyNone => Except.ok none
    | Fallback.str f => Except.ok (some f)
  | some sect =>
    match defaultsOptionLookup sect k with
    | some v => Except.ok (some v)
    | none =>
      match fb with
      | Fallback.absent => Except.error (ConfigError.noOption s k)
      | Fallback.unset => Except.error (ConfigError.noOption s k)
      | Fallback.pyNone => Except.ok none
      | Fallback.str f => Except.ok (some f)

/-- Model of `_get_cmd_option`: only sensitive identities may resolve via a
`key_cmd` entry of the file-backed store. -/
def get_cmd_option (st : ConfigState) (s k : String) : EffM (Option String) :=
  if isSensitive s k then
    match super_has_option st s (k ++ "_cmd") with
    | Except.error e => effErr e
    | Except.ok false => effOk none
    | Except.ok true =>
      match super_get st s (k ++ "_cmd") with
      | Except.error e => effErr e
      | Except.ok cmd =>
        match run_command st cmd with
        | (Except.error e, effs) => (Except.error e, effs)
        | (Except.ok out, effs) => (Except.ok (some out), effs)
  else effOk none

/-- Model of `_get_secret_option`: only sensitive identities may resolve
via a `key_secret` entry of the file-backed store. -/
def get_secret_option (st : ConfigState) (s k : String) : EffM (Option String) :=
  if isSensitive s k then
    match super_has_option st s (k ++ "_secret") with
    | Except.error e => effErr e
    | Except.ok false => effOk none
    | Except.ok true =>
      match super_get st s (k ++ "_secret") with
      | Except.error e => effErr e
      | Except.ok path => get_config_value_from_secret_backend st path
  else effOk none

/-- Last stage of `get`: the default table, short-circuited by a
caller-supplied fallback; on a total miss a warning is logged and the
section/key-not-found `AirflowConfigException` is raised. -/
def stage_default (st : ConfigState) (s k : String) (fb : Fallback) :
    EffM (Option String) :=
  match defaults_has_option st s k with
  | Except.error e => effErr e
  | Except.ok hasIt =>
    if hasIt || fb != Fallback.absent then
      match defaults_get st s k fb with
      | Except.error e => effErr e
      | Except.ok v => effOk (v.map (expand_env_var st))
    else
      (Except.error (ConfigError.notFound s k), [Effect.logMissingWarning s k])

/-- Secret-indirection stage of `get` (key, then deprecated key), falling
through to the default stage; a falsy result does not count. -/
def stage_secret (st : ConfigState) (s k : String) (dep : Option String)
    (fb : Fallback) : EffM (Option String) :=
  match get_secret_option st s k with
  | (Except.error e, effs) => (Except.error e, effs)
  | (Except.ok o, effs) =>
    if truthy o then (Except.ok o, effs)
    else
      match dep with
      | some old =>
        withEffs effs
          (match get_secret_option st s old with
           | (Except.error e, effs2) => (Except.error e, effs2)
           | (Except.ok o2, effs2) =>
             if truthy o2 then
               (Except.ok o2, effs2 ++ [Effect.deprecationWarning s k old])
             else withEffs effs2 (stage_default st s k fb))
      | none => withEffs effs (stage_default st s k fb)

/-- Command-indirection stage of `get` (key, then deprecated key), falling
through to the secret stage; a falsy result does not count. -/
def stage_cmd (st : ConfigState) (s k : String) (dep : Option String)
    (fb : Fallback) : EffM (Option String) :=
  match get_cmd_option st s k with
  | (Except.error e, effs) => (Except.error e, effs)
  | (Except.ok o, effs) =>
    if truthy o then (Except.ok o, effs)
    else
      match dep with
      | some old =>
        withEffs effs
          (match get_cmd_option st s old with
           | (Except.error e, effs2) => (Except.error e, effs2)
           | (Except.ok o2, effs2) =>
             if truthy o2 then
               (Except.ok o2, effs2 ++ [Effect.deprecationWarning s k old])
             else withEffs effs2 (stage_secret st s k dep fb))
      | none => withEffs effs (stage_secret st s k dep fb)

/-- File-store stage of `get` (exact key, then deprecated key, each
environment-expanded), falling through to the command stage. -/
def stage_file (st : ConfigState) (s k : String) (dep : Option String)
    (fb : Fallback) : EffM (Option String) :=
  match super_has_option st s k with
  | Except.error e => effErr e
  | Except.ok true =>
    match super_get st s k with
    | Except.error e => effErr e
    | Except.ok v => effOk (some (expand_env_var st v))
  | Except.ok false =>
    match dep with
    | some old =>
      (match super_has_option st s old with
       | Except.error e => effErr e
       | Except.ok true =>
         (match super_get st s old with
          | Except.error e => effErr e
          | Except.ok v =>
            (Except.ok (some (expand_env_var st v)),
             [Effect.deprecationWarning s k old]))
       | Except.ok false => stage_cmd st s k dep fb)
    | none => stage_cmd st s k dep fb

/-- Environment stage of `get` (key, then deprecated key; a non-`None`
result — including the empty string — terminates the chain), falling
through to the file stage. -/
def stage_env (st : ConfigState) (s k : String) (dep : Option String)
    (fb : Fallback) : EffM (Option String) :=
  match get_env_var_option st s k with
  | (Except.error e, effs) => (Except.error e, effs)
  | (Except.ok (some v), effs) => (Except.ok (some v), effs)
  | (Except.ok none, effs) =>
    match dep with
    | some old =>
      withEffs effs
        (match get_env_var_option st s old with
         | (Except.error e, effs2) => (Except.error e, effs2)
         | (Except.ok (some v), effs2) =>
           (Except.ok (some v), effs2 ++ [Effect.deprecationWarning s k old])
         | (Except.ok none, effs2) => withEffs effs2 (stage_file st s k dep fb))
    | none => withEffs effs (stage_file st s k dep fb)

/-- Model of `AirflowConfigParser.get`: lower-case the section and key, look
up the deprecated name, then run the precedence chain. -/
def get (st : ConfigState) (section0 key0 : String) (fb : Fallback) :
    EffM (Option String) :=
  let s := strLower section0
  let k := strLower key0
  stage_env st s k (deprecated_options s k) fb

/-- `self.get(section, key)` coerced to a definite string: with no usable
fallback the resolver never returns Python `None` (the guard mirrors the
`TypeError` Python would raise if it somehow did). -/
def get_str (st : ConfigState) (s k : String) : EffM String :=
  match get st s k Fallback.absent with
  | (Except.error e, effs) => (Except.error e, effs)
  | (Except.ok (some v), effs) => (Except.ok v, effs)
  | (Except.ok none, effs) => (Except.error ConfigError.typeError, effs)

/-- Model of `AirflowConfigParser.has_option`: resolve with the `_UNSET`
sentinel and treat `NoOptionError` / `NoSectionError` as "absent". -/
def has_option (st : ConfigState) (s k : String) : EffM Bool :=
  match get st s k Fallback.unset with
  | (Except.error (ConfigError.noOption _ _), effs) => (Except.ok false, effs)
  | (Except.error (ConfigError.noSection _), effs) => (Except.ok false, effs)
  | (Except.error e, effs) => (Except.error e, effs)
  | (Except.ok _, effs) => (Except.ok true, effs)

/-- The string normalisation of `getboolean`: `str(...).lower().strip()`
followed by stripping a trailing `#` comment. -/
def boolNormalize (raw : String) : String :=
  let val := strTrim (strLower raw)
  if val.data.any (fun c => c == '#') then
    strTrim ⟨val.data.takeWhile (fun c => !(c == '#'))⟩
  else val

/-- Python `str(...)` of the optional string a resolve produced. -/
def pyStrOfOpt : Option String → String
  | none => "None"
  | some v => v

/-- Model of `AirflowConfigParser.getboolean`. -/
def getboolean (st : ConfigState) (s k : String) (fb : Fallback) : EffM Bool :=
  match get st s k fb with
  | (Except.error e, effs) => (Except.error e, effs)
  | (Except.ok o, effs) =>
    let val := boolNormalize (pyStrOfOpt o)
    if val = "t" ∨ val = "true" ∨ val = "1" then (Except.ok true, effs)
    else if val = "f" ∨ val = "false" ∨ val = "0" then (Except.ok false, effs)
    else (Except.error (ConfigError.notBoolean s k val), effs)

/-- Check (a) of `_validate_config_dependencies`: a non-debug,
non-sequential executor combined with an sqlite-flavoured connection
string.  The error message re-fetches the executor, as the source does. -/
def dependency_check_sqlite (st : ConfigState) (next : EffM Unit) : EffM Unit :=
  match get_str st "core" "executor" with
  | (Except.error e, effs) => (Except.error e, effs)
  | (Except.ok executor, effs1) =>
    let condA : EffM Bool :=
      if executor ≠ "DebugExecutor" ∧ executor ≠ "SequentialExecutor" then
        match get_str st "core" "sql_alchemy_conn" with
        | (Except.error e, effs) => (Except.error e, effs)
        | (Except.ok conn, effs) => (Except.ok (strContains conn "sqlite"), effs)
      else effOk false
    match condA with
    | (Except.error e, effs2) => (Except.error e, effs1 ++ effs2)
    | (Except.ok true, effs2) =>
      withEffs (effs1 ++ effs2)
        (match get_str st "core" "executor" with
         | (Except.error e, effs) => (Except.error e, effs)
         | (Except.ok e2, effs) =>
           (Except.error (ConfigError.dependency
             ("error: cannot use sqlite with the " ++ e2)), effs))
    | (Except.ok false, effs2) => withEffs (effs1 ++ effs2) next

/-- Check (b): owner filtering enabled with an owner mode outside
`user` / `ldapgroup`. -/
def dependency_check_owner (st : ConfigState) (next : EffM Unit) : EffM Unit :=
  match getboolean st "webserver" "authenticate" Fallback.absent with
  | (Except.error e, effs) => (Except.error e, effs)
  | (Except.ok false, effs) => withEffs effs next
  | (Except.ok true, effs) =>
    match get_str st "webserver" "owner_mode" with
    | (Except.error e, effs2) => (Except.error e, effs ++ effs2)
    | (Except.ok om, effs2) =>
      if om ≠ "user" ∧ om ≠ "ldapgroup" then
        (Except.error (ConfigError.dependency
          ("error: owner_mode option should be either \x27user\x27 or " ++
           "\x27ldapgroup\x27 when filtering by owner is set")), effs ++ effs2)
      else withEffs (effs ++ effs2) next

/-- Check (c): ldapgroup owner mode without the ldap auth backend.  The
source re-evaluates `getboolean` and `get`, which is mirrored here. -/
def dependency_check_ldap (st : ConfigState) (next : EffM Unit) : EffM Unit :=
  match getboolean st "webserver" "authenticate" Fallback.absent with
  | (Except.error e, effs) => (Except.error e, effs)
  | (Except.ok false, effs) => withEffs effs next
  | (Except.ok true, effs) =>
    match get_str st "webserver" "owner_mode" with
    | (Except.error e, effs2) => (Except.error e, effs ++ effs2)
    | (Except.ok om, effs2) =>
      if strLower om = "ldapgroup" then
        match get_str st "webserver" "auth_backend" with
        | (Except.error e, effs3) => (Except.error e, effs ++ effs2 ++ effs3)
        | (Except.ok ab, effs3) =>
          if ab ≠ "airflow.contrib.auth.backends.ldap_auth" then
            (Except.error (ConfigError.dependency
              ("error: attempt at using ldapgroup filtering without " ++
               "using the Ldap backend")), effs ++ effs2 ++ effs3)
          else withEffs (effs ++ effs2 ++ effs3) next
      else withEffs (effs ++ effs2) next

/-- Check (d): a configured `mp_start_method` outside the platform start
methods. -/
def dependency_check_mp (st : ConfigState) : EffM Unit :=
  match has_option st "core" "mp_start_method" with
  | (Except.error e, effs) => (Except.error e, effs)
  | (Except.ok false, effs) => (Except.ok (), effs)
  | (Except.ok true, effs) =>
    match get_str st "core" "mp_start_method" with
    | (Except.error e, effs2) => (Except.error e, effs ++ effs2)
    | (Except.ok mp, effs2) =>
      if st.startMethods.contains mp then (Except.ok (), effs ++ effs2)
      else
        (Except.error (ConfigError.dependency
          ("mp_start_method should not be " ++ mp ++ ". Possible values are " ++
           strJoin ", " st.startMethods)), effs ++ effs2)

/-- Model of `_validate_config_dependencies`: the `if` / `elif` chain (a),
(b), (c) followed by the separate `mp_start_method` check (d); evaluation
stops at the first violation. -/
def validate_config_dependencies (st : ConfigState) : EffM Unit :=
  dependency_check_sqlite st
    (dependency_check_owner st
      (dependency_check_ldap st (dependency_check_mp st)))

/-- `os.environ.pop(name, None)`. -/
def removeEnvVar (st : ConfigState) (n : String) : ConfigState :=
  { st with env := st.env.filter (fun p => !(p.1 == n)) }

/-- Replace (or add) one key of one section of the file-backed store. -/
def setInSections (tbl : List (String × List (String × String)))
    (s k v : String) : List (String × List (String × String)) :=
  tbl.map (fun p => if p.1 = s then (p.1, assocSet p.2 k v) else p)

/-- `ConfigParser.set` on the file-backed store: raises `NoSectionError`
when the section is absent, otherwise stores the value under the verbatim
key (`optionxform` is the identity). -/
def parser_set (st : ConfigState) (s k v : String) : Except ConfigError ConfigState :=
  match alookup st.sections s with
  | none => Except.error (ConfigError.noSection s)
  | some _ => Except.ok { st with sections := setInSections st.sections s k v }

/-- One entry of the deprecated-values migration loop of `_validate`: if
the resolved value (with `fallback=None`) equals the old literal, pop the
matching environment variable, overwrite the file-backed store with the
replacement, and emit a `FutureWarning`. -/
def applyDeprecatedEntry (s name : String) (info : String × String × String)
    (st : ConfigState) : Option ConfigError × ConfigState × List Effect :=
  let oldVal := info.1
  let newVal := info.2.1
  let version := info.2.2
  match get st s name Fallback.pyNone with
  | (Except.error e, effs) => (some e, st, effs)
  | (Except.ok v, effs) =>
    if v = some oldVal then
      let st1 := removeEnvVar st (env_var_name s name)
      match parser_set st1 s name newVal with
      | Except.error e => (some e, st1, effs)
      | Except.ok st2 =>
        (none, st2, effs ++ [Effect.futureWarning s name oldVal newVal version])
    else (none, st, effs)

/-- Inner loop of the value migration (over the keys of one section). -/
def applyDeprecatedList (s : String) :
    List (String × (String × String × String)) → ConfigState →
    Option ConfigError × ConfigState × List Effect
  | [], st => (none, st, [])
  | (name, info) :: rest, st =>
    match applyDeprecatedEntry s name info st with
    | (some e, st1, effs) => (some e, st1, effs)
    | (none, st1, effs) =>
      match applyDeprecatedList s rest st1 with
      | (r, st2, effs2) => (r, st2, effs ++ effs2)

/-- Outer loop of the value migration (over the sections of the table). -/
def applyDeprecatedValues :
    List (String × List (String × (String × String × String))) → ConfigState →
    Option ConfigError × ConfigState × List Effect
  | [], st => (none, st, [])
  | (s, repl) :: rest, st =>
    match applyDeprecatedList s repl st with
    | (some e, st1, effs) => (some e, st1, effs)
    | (none, st1, effs) =>
      match applyDeprecatedValues rest st1 with
      | (r, st2, effs2) => (r, st2, effs ++ effs2)

/-- Model of `_validate`: the read-only dependency checks first, then the
mutating value migration, then `is_validated = True`.  On an error the
state reached so far is returned alongside the error. -/
def validate (st : ConfigState) : Option ConfigError × ConfigState × List Effect :=
  match validate_config_dependencies st with
  | (Except.error e, effs) => (some e, st, effs)
  | (Except.ok _, effs0) =>
    match applyDeprecatedValues deprecated_values st with
    | (some e, st1, effs) => (some e, st1, effs0 ++ effs)
    | (none, st1, effs) =>
      (none, { st1 with is_validated := true }, effs0 ++ effs)

/-- Add a section to the file-backed store if it is absent. -/
def addSection (tbl : List (String × List (String × String))) (s : String) :
    List (String × List (String × String)) :=
  match alookup tbl s with
  | some _ => tbl
  | none => tbl ++ [(s, [])]

/-- Merge a section -> key -> value dictionary into the file-backed store,
as `ConfigParser.read_dict` does (keys verbatim under the identity
`optionxform`). -/
def mergeSections (st : ConfigState)
    (d : List (String × List (String × String))) : ConfigState :=
  { st with
    sections :=
      d.foldl
        (fun tbl p =>
          p.2.foldl (fun t q => setInSections t p.1 q.1 q.2) (addSection tbl p.1))
        st.sections }

/-- Model of `AirflowConfigParser.read_dict` (the load operation): merge
the dictionary, then run `_validate`. -/
def read_dict (st : ConfigState) (d : List (String × List (String × String))) :
    Option ConfigError × ConfigState × List Effect :=
  validate (mergeSections st d)

/-- A Python value as produced by the `getsection` coercion loop. -/
inductive PyVal where
  | pstr (v : String)
  | pint (n : Int)
  | pfloat (canon : String)
  | pbool (b : Bool)
  deriving DecidableEq

/-- Simplified model of Python `int(string)`: optional surrounding
whitespace, optional sign, a non-empty digit run (numeric underscores are
not modelled). -/
def pyInt? (v : String) : Option Int :=
  let t := (strTrim v).data
  let neg := isPrefixList ['-'] t
  let core := if isPrefixList ['-'] t ∨ isPrefixList ['+'] t then t.drop 1 else t
  if core ≠ [] ∧ core.all Char.isDigit then
    some (if neg then -(Int.ofNat (digitsVal core)) else Int.ofNat (digitsVal core))
  else none

/-- The `int` / `float` / boolean coercion `getsection` applies to each
value; float parsing and printing are delegated to the `floatParse`
collaborator. -/
def coerce1 (st : ConfigState) (v : String) : PyVal :=
  match pyInt? v with
  | some n => PyVal.pint n
  | none =>
    match st.floatParse v with
    | some canon => PyVal.pfloat canon
    | none =>
      if strLower v = "t" ∨ strLower v = "true" then PyVal.pbool true
      else if strLower v = "f" ∨ strLower v = "false" then PyVal.pbool false
      else PyVal.pstr v

/-- Python `str()` of a coerced value, as `_write_section` prints it. -/
def pyValStr : PyVal → String
  | PyVal.pstr v => v
  | PyVal.pint n => toString n
  | PyVal.pfloat canon => canon
  | PyVal.pbool true => "True"
  | PyVal.pbool false => "False"

/-- Coerce every value of a section dict; a Python `None` value (possible
when an `AIRFLOW__` variable was merged for a non-sensitive `_CMD` key)
raises `TypeError` inside `int()`. -/
def coerceVals (st : ConfigState) :
    List (String × Option String) → Except ConfigError (List (String × PyVal))
  | [] => Except.ok []
  | (_, none) :: _ => Except.error ConfigError.typeError
  | (k, some v) :: t =>
    match coerceVals st t with
    | Except.error e => Except.error e
    | Except.ok rest => Except.ok ((k, coerce1 st v) :: rest)

/-- Insertion into a sorted string list (for `sorted(os.environ.keys())`). -/
def insertSorted (x : String) : List String → List String
  | [] => [x]
  | y :: t => if strLe x y then x :: y :: t else y :: insertSorted x t

/-- Sort a list of strings. -/
def sortStrings (l : List String) : List String :=
  l.foldr insertSorted []

/-- The environment-variable names `getsection` scans for one section. -/
def envKeysForSection (st : ConfigState) (sp : String) : List String :=
  sortStrings ((st.env.map (fun p => p.1)).filter (fun n => strStartsWith n sp))

/-- The environment merge loop of `getsection`: strip the section prefix,
strip a `_CMD` suffix, lower-case, and overwrite the dict entry with the
result of `_get_env_var_option` (which may be Python `None`). -/
def envScan (st : ConfigState) (s : String) :
    List String → List (String × Option String) →
    EffM (List (String × Option String))
  | [], acc => effOk acc
  | ev :: rest, acc =>
    let sp := "AIRFLOW__" ++ strUpper s ++ "__"
    let key0 := strReplace ev sp ""
    let key1 := if strEndsWith key0 "_CMD" then strDropRight key0 4 else key0
    let key := strLower key1
    match get_env_var_option st s key with
    | (Except.error e, effs) => (Except.error e, effs)
    | (Except.ok o, effs) => withEffs effs (envScan st s rest (assocSet acc key o))

/-- Model of `AirflowConfigParser.getsection`: `None` when the section is
known nowhere; `KeyError` when it is absent from the default table but
present in the file-backed store; otherwise defaults merged with file
values, overlaid with matching environment variables, and coerced. -/
def getsection (st : ConfigState) (s : String) :
    EffM (Option (List (String × PyVal))) :=
  if (alookup st.sections s).isNone ∧ (alookup st.airflow_defaults s).isNone then
    effOk none
  else
    match alookup st.airflow_defaults s with
    | none => effErr (ConfigError.keyError s)
    | some base =>
      let mergedBase : List (String × String) :=
        match alookup st.sections s with
        | some fsect => dictUpdate base fsect
        | none => base
      let merged0 : List (String × Option String) :=
        mergedBase.map (fun p => (p.1, some p.2))
      let sp := "AIRFLOW__" ++ strUpper s ++ "__"
      match envScan st s (envKeysForSection st sp) merged0 with
      | (Except.error e, effs) => (Except.error e, effs)
      | (Except.ok withEnv, effs) =>
        match coerceVals st withEnv with
        | Except.error e => (Except.error e, effs)
        | Except.ok out => (Except.ok (some out), effs)

/-- The section loop of `AirflowConfigParser.write`, producing the written
INI content as structured section/key/value data (the text round-trip of
the INI format itself is a collaborator assumed faithful). -/
def writeSections (st : ConfigState) :
    List String → EffM (List (String × List (String × String)))
  | [] => effOk []
  | name :: rest =>
    match getsection st name with
    | (Except.error e, effs) => (Except.error e, effs)
    | (Except.ok none, effs) => (Except.error ConfigError.typeError, effs)
    | (Except.ok (some items), effs) =>
      match writeSections st rest with
      | (Except.error e, effs2) => (Except.error e, effs ++ effs2)
      | (Except.ok out, effs2) =>
        (Except.ok ((name, items.map (fun p => (p.1, pyValStr p.2))) :: out),
         effs ++ effs2)

/-- Model of `AirflowConfigParser.write` (the instance `_defaults` dict is
empty in this model, so only the proper sections are emitted). -/
def write (st : ConfigState) : EffM (List (String × List (String × String))) :=
  writeSections st (st.sections.map (fun p => p.1))

/-- Re-parse the written INI text into a parser that shares the same
default table, environment and collaborators (what re-reading the written
file into a fresh `AirflowConfigParser` yields, before `_validate` runs). -/
def reparse (st : ConfigState)
    (written : List (String × List (String × String))) : ConfigState :=
  { st with sections := written, is_validated := false }

/-- The full export round trip of the claim: `write` the configuration,
re-load the written file (`read` = re-parse plus `_validate`). -/
def roundTrip (st : ConfigState) : Option ConfigError × ConfigState × List Effect :=
  match write st with
  | (Except.error e, effs) => (some e, st, effs)
  | (Except.ok written, effs) =>
    match validate (reparse st written) with
    | (r, st1, effs2) => (r, st1, effs ++ effs2)

/-- Scenario surgery for the precedence claims: drop one key of one section
of the file-backed store. -/
def removeFileOption (st : ConfigState) (s k : String) : ConfigState :=
  { st with
    sections :=
      st.sections.map
        (fun p => if p.1 = s then (p.1, p.2.filter (fun q => !(q.1 == k))) else p) }

/-- Effects that are an external command execution or a secret-backend
call. -/
def isExecEffect : Effect → Bool
  | Effect.ranCommand _ => true
  | Effect.secretBackendCall _ => true
  | _ => false

/-- No effect of the trace executes a command or consults the secret
backend. -/
def noExec (effs : List Effect) : Bool :=
  effs.all (fun e => !isExecEffect e)

/-- A value that the `getsection` coercion leaves as a plain string and
that the interpolation collaborator leaves unchanged. -/
def GoodVal (st : ConfigState) (v : String) : Prop :=
  coerce1 st v = PyVal.pstr v ∧ st.interp v = v

/-- Convenience constructor for concrete states: identity interpolation,
no float-parsing values, `fork` as the only start method. -/
def mkState (env : List (String × String))
    (sections dflts : List (String × List (String × String)))
    (cr : String → Int × String × String)
    (sb : String → Option String) : ConfigState :=
  { env := env, sections := sections, airflow_defaults := dflts,
    cmdRunner := cr, secretBackend := sb, interp := fun v => v, fuel := 1,
    floatParse := fun _ => none, startMethods := ["fork"], is_validated := false }

/-- A command runner on which every command fails (used where no command
may run). -/
def failCmd : String → Int × String × String := fun _ => (1, "", "bad")

/-- A secret backend that knows nothing. -/
def noSecret : String → Option String := fun _ => none

/-- Witness state for the three-tier precedence claim: the same key set in
the environment, the file-backed store and the default table. -/
def stC1 : ConfigState := mkState
  [("AIRFLOW__MYSECT__MYKEY", "envv")]
  [("mysect", [("mykey", "filev")])]
  [("mysect", [("mykey", "defv")])]
  failCmd noSecret

/-- Counterexample state for the tier-exhaustion claim: the new key
`result_backend` has only an environment `_CMD` value while the deprecated
old key `celery_result_backend` has a plain environment value. -/
def stC2 : ConfigState := mkState
  [("AIRFLOW__CELERY__RESULT_BACKEND_CMD", "fetch-backend"),
   ("AIRFLOW__CELERY__CELERY_RESULT_BACKEND", "redis-old")]
  [] []
  (fun c => if c = "fetch-backend" then (0, "redis-cmd", "") else (1, "", ""))
  noSecret

/-- Witness state for the amended tier-exhaustion claim: the new key yields
nothing from the environment group, the old key has a plain environment
value, and the new key also has a file value. -/
def stC2w : ConfigState := mkState
  [("AIRFLOW__CELERY__CELERY_RESULT_BACKEND", "redis-old")]
  [("celery", [("result_backend", "filev")])]
  [] failCmd noSecret

/-- Witness state for the command/secret-skipping claim. -/
def stC3w : ConfigState := mkState
  [("AIRFLOW__MYSECT__MYKEY_CMD", "evil-cmd"),
   ("AIRFLOW__MYSECT__MYKEY_SECRET", "evil-path")]
  [("mysect", [("mykey_cmd", "evil-cmd2"), ("mykey_secret", "evil-path2")])]
  [("mysect", [("mykey", "defv")])]
  failCmd noSecret

/-- Counterexample state for the not-found claim: the queried section is
absent from the file-backed store. -/
def stC4 : ConfigState := mkState [] [] [] failCmd noSecret

/-- Witness state for the amended not-found claim. -/
def stC4w : ConfigState := mkState [] [("sec", [])] [("sec", [])] failCmd noSecret

/-- Counterexample state for the value-migration claim: the environment
variable holds the old literal while the file value differs from it. -/
def stC5 : ConfigState := mkState
  [("AIRFLOW__CORE__TASK_RUNNER", "BashTaskRunner")]
  [("core", [("task_runner", "CustomRunner")]), ("webserver", [])]
  [("core", [("executor", "SequentialExecutor"), ("sql_alchemy_conn", "mysql-conn"),
             ("task_runner", "StandardTaskRunner")]),
   ("webserver", [("authenticate", "False")])]
  failCmd noSecret

/-- The C5 state after popping the environment override. -/
def wst1C5 : ConfigState := removeEnvVar stC5 (env_var_name "core" "task_runner")

/-- The C5 state after popping the override and overwriting the store. -/
def wst2C5 : ConfigState :=
  { wst1C5 with
    sections := setInSections wst1C5.sections "core" "task_runner" "StandardTaskRunner" }

/-- Witness state for the dependency-validation ordering claim: violates
both the sqlite rule and the owner-mode rule. -/
def stC6 : ConfigState := mkState []
  [("core", []), ("webserver", [])]
  [("core", [("executor", "LocalExecutor"), ("sql_alchemy_conn", "sqlite-path")]),
   ("webserver", [("authenticate", "True"), ("owner_mode", "bogus"), ("auth_backend", "x")])]
  failCmd noSecret

/-- Counterexample state for the export round-trip claim: the file value
`t` is coerced to boolean `True` by the export path. -/
def stC7 : ConfigState := mkState []
  [("core", [("mykey", "t")]), ("webserver", [])]
  [("core", [("executor", "SequentialExecutor"), ("sql_alchemy_conn", "mysql-conn"),
             ("task_runner", "StandardTaskRunner")]),
   ("webserver", [("authenticate", "False")])]
  failCmd noSecret

/-- Witness state for the amended round-trip claim. -/
def stC7w : ConfigState := mkState []
  [("core", [("mykey", "hello")])]
  [("core", [("dkey", "world")])]
  failCmd noSecret

/-- Counterexample state for the case-insensitivity claim: a file-backed
store whose stored key has non-lower-case casing. -/
def stC8a : ConfigState := mkState [] [("core", [("MyKey", "val")])] [("core", [])]
  failCmd noSecret

/-- The same store with the key stored lower-case. -/
def stC8b : ConfigState := mkState [] [("core", [("mykey", "val")])] [("core", [])]
  failCmd noSecret

/-- Key transformer for the amended case-insensitivity witness: re-cases
the stored default key `dkey`. -/
def recaseDKey : String → String := fun x => if x = "dkey" then "DKey" else x

/-- Witness state for the empty-value asymmetry claim, command/secret side:
a sensitive key whose `_cmd` entry prints nothing and whose `_secret` entry
resolves to the empty string. -/
def stC10b : ConfigState := mkState []
  [("core", [("fernet_key_cmd", "fkcmd"), ("fernet_key_secret", "fkpath")])]
  [("core", [("fernet_key", "default-fk")])]
  (fun c => if c = "fkcmd" then (0, "", "") else (1, "", ""))
  (fun p => if p = "fkpath" then some "" else none)

/-- Witness state for the empty-value asymmetry claim, environment side. -/
def stC10a : ConfigState := mkState
  [("AIRFLOW__SEC__KEY", "")]
  [] [] failCmd noSecret

/-- Re-case the stored keys of the default table with a function `f`. -/
def mapDefaultsKeys (st : ConfigState) (f : String → String) : ConfigState :=
  { st with
    airflow_defaults :=
      st.airflow_defaults.map (fun p => (p.1, p.2.map (fun q => (f q.1, q.2)))) }

/-! Helper lemmas about the association-list primitives. -/

theorem alookup_filter_self {α : Type} (l : List (String × α)) (k : String) :
    alookup (l.filter (fun q => !(q.1 == k))) k = none := by
  induction l with
  | nil => rfl
  | cons p t ih =>
    obtain ⟨a, b⟩ := p
    by_cases h : a = k
    · simp [List.filter_cons, h, ih]
    · simp [List.filter_cons, h, alookup, ih]

theorem alookup_filter_other {α : Type} (l : List (String × α)) (k m : String)
    (h : m ≠ k) :
    alookup (l.filter (fun q => !(q.1 == k))) m = alookup l m := by
  induction l with
  | nil => rfl
  | cons p t ih =>
    obtain ⟨a, b⟩ := p
    by_cases h1 : a = k
    · subst h1
      simp [List.filter_cons, alookup, Ne.symm h, ih]
    · by_cases h2 : a = m
      · subst h2
        simp [List.filter_cons, alookup, h1, h, ih]
      · simp [List.filter_cons, alookup, h1, h2, ih]

theorem alookup_map_section {α : Type} (tbl : List (String × α)) (s : String)
    (g : α → α) :
    alookup (tbl.map (fun p => if p.1 = s then (p.1, g p.2) else p)) s =
      (alookup tbl s).map g := by
  induction tbl with
  | nil => rfl
  | cons p t ih =>
    obtain ⟨a, b⟩ := p
    simp only [List.map_cons]
    by_cases h : a = s
    · subst h
      rw [if_pos rfl]
      simp [alookup, ih]
    · rw [if_neg h]
      simp [alookup, h, ih]

theorem alookup_map_section_other {α : Type} (tbl : List (String × α)) (s m : String)
    (g : α → α) (h : m ≠ s) :
    alookup (tbl.map (fun p => if p.1 = s then (p.1, g p.2) else p)) m =
      alookup tbl m := by
  induction tbl with
  | nil => rfl
  | cons p t ih =>
    obtain ⟨a, b⟩ := p
    simp only [List.map_cons]
    by_cases h1 : a = s
    · subst h1
      rw [if_pos rfl]
      simp [alookup, Ne.symm h, ih]
    · rw [if_neg h1]
      by_cases h2 : a = m
      · subst h2
        simp [alookup, ih]
      · simp [alookup, h2, ih]

theorem string_append_ne (x y : String) (h : y ≠ "") : x ++ y ≠ x := by
  intro he
  apply h
  have hl : (x ++ y).length = x.length := by rw [he]
  rw [String.length_append] at hl
  have h0 : y.length = 0 := by omega
  cases y with
  | mk data =>
    cases data with
    | nil => rfl
    | cons c cs => simp [String.length] at h0

/-! Facts about the scenario-surgery helpers. -/

@[simp] theorem removeEnvVar_sections (st : ConfigState) (n : String) :
    (removeEnvVar st n).sections = st.sections := rfl

@[simp] theorem removeEnvVar_defaults (st : ConfigState) (n : String) :
    (removeEnvVar st n).airflow_defaults = st.airflow_defaults := rfl

theorem removeEnvVar_lookup_self (st : ConfigState) (n : String) :
    alookup (removeEnvVar st n).env n = none := by
  unfold removeEnvVar
  exact alookup_filter_self st.env n

theorem removeEnvVar_lookup_other (st : ConfigState) (n m : String) (h : m ≠ n) :
    alookup (removeEnvVar st n).env m = alookup st.env m := by
  unfold removeEnvVar
  exact alookup_filter_other st.env n m h

@[simp] theorem removeFileOption_env (st : ConfigState) (s k : String) :
    (removeFileOption st s k).env = st.env := rfl

@[simp] theorem removeFileOption_defaults (st : ConfigState) (s k : String) :
    (removeFileOption st s k).airflow_defaults = st.airflow_defaults := rfl

/-! Per-tier evaluation lemmas used by several claims. -/

theorem get_env_var_option_plain (st : ConfigState) (s k v : String)
    (he : alookup st.env (env_var_name s k) = some v) :
    get_env_var_option st s k = (Except.ok (some (expand_env_var st v)), []) := by
  unfold get_env_var_option
  simp [he, effOk]

theorem get_env_var_option_missing (st : ConfigState) (s k : String)
    (he : alookup st.env (env_var_name s k) = none)
    (hc : alookup st.env (env_var_name s k ++ "_CMD") = none)
    (hs : alookup st.env (env_var_name s k ++ "_SECRET") = none) :
    get_env_var_option st s k = (Except.ok none, []) := by
  unfold get_env_var_option env_secret_branch
  simp [he, hc, hs, effOk]

theorem get_cmd_option_skip (st : ConfigState) (s k : String)
    (h : super_has_option st s (k ++ "_cmd") = Except.ok false) :
    get_cmd_option st s k = effOk none := by
  unfold get_cmd_option
  cases hs : isSensitive s k <;> simp [h, effOk]

theorem get_secret_option_skip (st : ConfigState) (s k : String)
    (h : super_has_option st s (k ++ "_secret") = Except.ok false) :
    get_secret_option st s k = effOk none := by
  unfold get_secret_option
  cases hs : isSensitive s k <;> simp [h, effOk]

theorem super_has_option_found (st : ConfigState) (s k : String)
    (sect : List (String × String)) (hne : s ≠ "")
    (hs : alookup st.sections s = some sect) (v : String)
    (hk : alookup sect k = some v) :
    super_has_option st s k = Except.ok true := by
  unfold super_has_option
  simp [hne, hs, hk]

theorem super_has_option_missing (st : ConfigState) (s k : String)
    (sect : List (String × String)) (hne : s ≠ "")
    (hs : alookup st.sections s = some sect)
    (hk : alookup sect k = none) :
    super_has_option st s k = Except.ok false := by
  unfold super_has_option
  simp [hne, hs, hk]

/-- CLAIM C1 — the three-tier precedence chain: with the same key set in
the environment, the file-backed store and the default table (and no
deprecated mapping, command or secret hints in play), `get` returns the
environment value; with the environment variable removed it returns the
file value; with the file entry also removed it returns the default
value. -/
theorem claim_C1_precedence (st : ConfigState) (S K v w u : String)
    (fsect dsect : List (String × String))
    (hS : strLower S = S) (hK : strLower K = K) (hSne : S ≠ "")
    (hdep : deprecated_options S K = none)
    (he : alookup st.env (env_var_name S K) = some v) (hv : st.interp v = v)
    (hec : alookup st.env (env_var_name S K ++ "_CMD") = none)
    (hes : alookup st.env (env_var_name S K ++ "_SECRET") = none)
    (hfs : alookup st.sections S = some fsect)
    (hf : alookup fsect K = some w) (hw : st.interp w = w)
    (hfc : alookup fsect (K ++ "_cmd") = none)
    (hfsec : alookup fsect (K ++ "_secret") = none)
    (hds : alookup st.airflow_defaults S = some dsect)
    (hd : defaultsOptionLookup dsect K = some u) (hu : st.interp u = u) :
    get st S K Fallback.absent = (Except.ok (some v), []) ∧
    get (removeEnvVar st (env_var_name S K)) S K Fallback.absent =
      (Except.ok (some w), []) ∧
    get (removeFileOption (removeEnvVar st (env_var_name S K)) S K) S K
      Fallback.absent = (Except.ok (some u), []) := by
  have hcmdne : env_var_name S K ++ "_CMD" ≠ env_var_name S K :=
    string_append_ne _ _ (by decide)
  have hsecne : env_var_name S K ++ "_SECRET" ≠ env_var_name S K :=
    string_append_ne _ _ (by decide)
  have hkcmdne : K ++ "_cmd" ≠ K := string_append_ne _ _ (by decide)
  have hksecne : K ++ "_secret" ≠ K := string_append_ne _ _ (by decide)
  refine ⟨?_, ?_, ?_⟩
  · unfold get
    simp only [hS, hK, hdep]
    unfold stage_env
    rw [get_env_var_option_plain st S K v he, expand_env_var_fixed st v hv]
  · set st2 := removeEnvVar st (env_var_name S K) with hst2
    have henv2 : get_env_var_option st2 S K = (Except.ok none, []) := by
      apply get_env_var_option_missing
      · exact removeEnvVar_lookup_self st _
      · rw [removeEnvVar_lookup_other st _ _ hcmdne]; exact hec
      · rw [removeEnvVar_lookup_other st _ _ hsecne]; exact hes
    have hhas2 : super_has_option st2 S K = Except.ok true :=
      super_has_option_found st2 S K fsect hSne hfs w hf
    have hget2 : super_get st2 S K = Except.ok w := by
      unfold super_get
      rw [show alookup st2.sections S = some fsect from hfs]
      simp [hf]
    unfold get
    simp only [hS, hK, hdep]
    unfold stage_env stage_file
    rw [henv2, hhas2, hget2]
    simp [effOk, withEffs, expand_env_var_fixed st2 w hw]
  · set st2 := removeEnvVar st (env_var_name S K) with hst2
    set st3 := removeFileOption st2 S K with hst3
    have henv3 : get_env_var_option st3 S K = (Except.ok none, []) := by
      apply get_env_var_option_missing
      · exact removeEnvVar_lookup_self st _
      · rw [show st3.env = st2.env from rfl, removeEnvVar_lookup_other st _ _ hcmdne]
        exact hec
      · rw [show st3.env = st2.env from rfl, removeEnvVar_lookup_other st _ _ hsecne]
        exact hes
    have hsect3 : alookup st3.sections S = some (fsect.filter (fun q => !(q.1 == K))) := by
      show alookup (st2.sections.map _) S = _
      rw [alookup_map_section st2.sections S _]
      rw [show alookup st2.sections S = some fsect from hfs]
      rfl
    have hk3 : alookup (fsect.filter (fun q => !(q.1 == K))) K = none :=
      alookup_filter_self fsect K
    have hkc3 : alookup (fsect.filter (fun q => !(q.1 == K))) (K ++ "_cmd") = none := by
      rw [alookup_filter_other fsect K _ hkcmdne]; exact hfc
    have hks3 : alookup (fsect.filter (fun q => !(q.1 == K))) (K ++ "_secret") = none := by
      rw [alookup_filter_other fsect K _ hksecne]; exact hfsec
    have hhas3 : super_has_option st3 S K = Except.ok false :=
      super_has_option_missing st3 S K _ hSne hsect3 hk3
    have hcmd3 : get_cmd_option st3 S K = effOk none :=
      get_cmd_option_skip st3 S K
        (super_has_option_missing st3 S (K ++ "_cmd") _ hSne hsect3 hkc3)
    have hsecopt3 : get_secret_option st3 S K = effOk none :=
      get_secret_option_skip st3 S K
        (super_has_option_missing st3 S (K ++ "_secret") _ hSne hsect3 hks3)
    have hdhas3 : defaults_has_option st3 S K = Except.ok true := by
      unfold defaults_has_option
      rw [show alookup st3.airflow_defaults S = some dsect from hds]
      simp [hSne, hd]
    have hdget3 : defaults_get st3 S K Fallback.absent = Except.ok (some u) := by
      unfold defaults_get
      rw [show alookup st3.airflow_defaults S = some dsect from hds]
      simp [hd]
    unfold get
    simp only [hS, hK, hdep]
    unfold stage_env stage_file stage_cmd stage_secret stage_default
    rw [henv3, hhas3, hcmd3, hsecopt3, hdhas3, hdget3]
    simp [effOk, withEffs, truthy, expand_env_var_fixed st3 u hu]

/-- Witness for C1 at a concrete store. -/
theorem claim_C1_precedence_witness :
    get stC1 "mysect" "mykey" Fallback.absent = (Except.ok (some "envv"), []) ∧
    get (removeEnvVar stC1 (env_var_name "mysect" "mykey")) "mysect" "mykey"
      Fallback.absent = (Except.ok (some "filev"), []) ∧
    get (removeFileOption (removeEnvVar stC1 (env_var_name "mysect" "mykey"))
      "mysect" "mykey") "mysect" "mykey" Fallback.absent =
      (Except.ok (some "defv"), []) := by
  exact claim_C1_precedence stC1 "mysect" "mykey" "envv" "filev" "defv"
    [("mykey", "filev")] [("mykey", "defv")]
    (by decide) (by decide) (by decide) (by decide)
    (by decide) (by decide) (by decide) (by decide)
    (by decide) (by decide) (by decide) (by decide) (by decide)
    (by decide) (by decide) (by decide)

/-- CLAIM C2 counterexample — with a deprecated-name mapping in place, the
old key's plain environment value is NOT returned when the new key has an
environment `_CMD` value: the whole environment group of the new key
(plain, `_CMD`, `_SECRET`) is consulted before the old key's plain
variable, so the command result wins. -/
theorem claim_C2_counterexample :
    deprecated_options "celery" "result_backend" = some "celery_result_backend" ∧
    alookup stC2.env (env_var_name "celery" "result_backend") = none ∧
    alookup stC2.env (env_var_name "celery" "result_backend" ++ "_CMD") =
      some "fetch-backend" ∧
    alookup stC2.env (env_var_name "celery" "celery_result_backend") =
      some "redis-old" ∧
    get stC2 "celery" "result_backend" Fallback.absent =
      (Except.ok (some "redis-cmd"), [Effect.ranCommand "fetch-backend"]) ∧
    "redis-cmd" ≠ "redis-old" := by
  decide

/-- CLAIM C2 (amended) — the environment tier is grouped per key: the new
key's plain, `_CMD` and `_SECRET` environment forms are all consulted
before the old key; when that whole group yields nothing and the old key
has a plain environment value, that value is returned together with a
deprecation warning, before any file, command-indirection, secret or
default source of the new key is consulted. -/
theorem claim_C2_env_group (st : ConfigState) (S K old v : String)
    (fb : Fallback) (e0 : List Effect)
    (hS : strLower S = S) (hK : strLower K = K)
    (hdep : deprecated_options S K = some old)
    (henv : get_env_var_option st S K = (Except.ok none, e0))
    (he : alookup st.env (env_var_name S old) = some v)
    (hv : st.interp v = v) :
    get st S K fb =
      (Except.ok (some v), e0 ++ [Effect.deprecationWarning S K old]) := by
  have hold := get_env_var_option_plain st S old v he
  unfold get
  simp only [hS, hK, hdep]
  unfold stage_env
  rw [henv]
  simp [hold, withEffs, expand_env_var_fixed st v hv]

/-- Witness for the amended C2: the old key's plain environment value beats
the new key's file value. -/
theorem claim_C2_env_group_witness :
    get stC2w "celery" "result_backend" Fallback.absent =
      (Except.ok (some "redis-old"),
       [Effect.deprecationWarning "celery" "result_backend"
         "celery_result_backend"]) := by
  have h := claim_C2_env_group stC2w "celery" "result_backend"
    "celery_result_backend" "redis-old" Fallback.absent []
    (by decide) (by decide) (by decide) (by decide) (by decide) (by decide)
  simpa using h

/-! Claim C3: identities outside the sensitive registry never trigger
command execution or secret-backend calls. -/

theorem alookup_mem {α : Type} (l : List (String × α)) (k : String) (v : α)
    (h : alookup l k = some v) : (k, v) ∈ l := by
  induction l with
  | nil => cases h
  | cons p t ih =>
    obtain ⟨a, b⟩ := p
    by_cases h1 : a = k
    · subst h1
      rw [alookup_cons] at h
      simp at h
      subst h
      exact List.mem_cons_self _ _
    · rw [alookup_cons] at h
      simp [h1] at h
      exact List.mem_cons_of_mem _ (ih h)

theorem dep_old_not_sensitive (S K old : String)
    (h : deprecated_options S K = some old)
    (hfalse : isSensitive S K = false) : isSensitive S old = false := by
  unfold deprecated_options at h
  rcases hm : alookup deprecated_options_table S with _ | m
  · rw [hm] at h; cases h
  · rw [hm] at h
    have h1 := alookup_mem _ _ _ hm
    have h2 := alookup_mem _ _ _ h
    unfold deprecated_options_table at h1
    simp only [List.mem_cons, List.not_mem_nil, or_false, Prod.mk.injEq] at h1
    rcases h1 with ⟨hS, hm'⟩ | ⟨hS, hm'⟩
    · subst hS; subst hm'
      simp only [List.mem_cons, List.not_mem_nil, or_false, Prod.mk.injEq] at h2
      rcases h2 with ⟨hK, ho⟩ | ⟨hK, ho⟩ | ⟨hK, ho⟩ | ⟨hK, ho⟩ | ⟨hK, ho⟩ | ⟨hK, ho⟩ <;>
        subst hK <;> subst ho <;>
        first
          | decide
          | exact absurd hfalse (by decide)
    · subst hS; subst hm'
      simp only [List.mem_cons, List.not_mem_nil, or_false, Prod.mk.injEq] at h2
      rcases h2 with ⟨hK, ho⟩ | ⟨hK, ho⟩ | ⟨hK, ho⟩ | ⟨hK, ho⟩ | ⟨hK, ho⟩ | ⟨hK, ho⟩ | ⟨hK, ho⟩ <;>
        subst hK <;> subst ho <;> decide

theorem get_env_var_option_not_sensitive (st : ConfigState) (S K : String)
    (h : isSensitive S K = false) :
    ∃ o, get_env_var_option st S K = (Except.ok o, []) := by
  unfold get_env_var_option env_secret_branch
  rcases h1 : alookup st.env (env_var_name S K) with _ | v
  · rcases h2 : alookup st.env (env_var_name S K ++ "_CMD") with _ | cmd
    · rcases h3 : alookup st.env (env_var_name S K ++ "_SECRET") with _ | p
      · exact ⟨none, by simp [h1, h2, h3, effOk]⟩
      · exact ⟨none, by simp [h1, h2, h3, h, effOk]⟩
    · rcases h3 : alookup st.env (env_var_name S K ++ "_SECRET") with _ | p
      · exact ⟨none, by simp [h1, h2, h3, h, effOk]⟩
      · exact ⟨none, by simp [h1, h2, h3, h, effOk]⟩
  · exact ⟨some (expand_env_var st v), by simp [h1, effOk]⟩

theorem get_cmd_option_not_sensitive (st : ConfigState) (S K : String)
    (h : isSensitive S K = false) : get_cmd_option st S K = effOk none := by
  unfold get_cmd_option
  simp [h]

theorem get_secret_option_not_sensitive (st : ConfigState) (S K : String)
    (h : isSensitive S K = false) : get_secret_option st S K = effOk none := by
  unfold get_secret_option
  simp [h]

theorem noExec_append (a b : List Effect) :
    noExec (a ++ b) = (noExec a && noExec b) := by
  unfold noExec
  exact List.all_append

theorem stage_default_noExec (st : ConfigState) (s k : String) (fb : Fallback) :
    noExec (stage_default st s k fb).2 = true := by
  unfold stage_default
  rcases h : defaults_has_option st s k with e | b
  · simp [effErr, noExec]
  · simp only [h]
    split
    · rcases h2 : defaults_get st s k fb with e | v <;>
        simp [h2, effErr, effOk, noExec]
    · simp [noExec, isExecEffect]

theorem stage_secret_noExec (st : ConfigState) (s k : String)
    (dep : Option String) (fb : Fallback)
    (hk : isSensitive s k = false)
    (hdep : ∀ old, dep = some old → isSensitive s old = false) :
    noExec (stage_secret st s k dep fb).2 = true := by
  unfold stage_secret
  rw [get_secret_option_not_sensitive st s k hk]
  cases dep with
  | none =>
    simp [effOk, truthy, withEffs, noExec_append, stage_default_noExec]
  | some old =>
    have h2 := get_secret_option_not_sensitive st s old (hdep old rfl)
    simp [effOk, truthy, withEffs, noExec_append, h2, stage_default_noExec]

theorem stage_cmd_noExec (st : ConfigState) (s k : String)
    (dep : Option String) (fb : Fallback)
    (hk : isSensitive s k = false)
    (hdep : ∀ old, dep = some old → isSensitive s old = false) :
    noExec (stage_cmd st s k dep fb).2 = true := by
  unfold stage_cmd
  rw [get_cmd_option_not_sensitive st s k hk]
  cases dep with
  | none =>
    simp [effOk, truthy, withEffs, noExec_append, stage_secret_noExec st s k none fb hk hdep]
  | some old =>
    have h2 := get_cmd_option_not_sensitive st s old (hdep old rfl)
    simp [effOk, truthy, withEffs, noExec_append, h2,
      stage_secret_noExec st s k (some old) fb hk hdep]

theorem stage_file_noExec (st : ConfigState) (s k : String)
    (dep : Option String) (fb : Fallback)
    (hk : isSensitive s k = false)
    (hdep : ∀ old, dep = some old → isSensitive s old = false) :
    noExec (stage_file st s k dep fb).2 = true := by
  unfold stage_file
  rcases h : super_has_option st s k with e | b
  · simp [effErr, noExec]
  · cases b with
    | true =>
      simp only [h]
      rcases h2 : super_get st s k with e | v <;> simp [h2, effErr, effOk, noExec]
    | false =>
      simp only [h]
      cases dep with
      | none => simp [stage_cmd_noExec st s k none fb hk hdep]
      | some old =>
        rcases h3 : super_has_option st s old with e2 | b2
        · simp [h3, effErr, noExec]
        · cases b2 with
          | true =>
            simp only [h3]
            rcases h4 : super_get st s old with e | v <;>
              simp [h4, effErr, noExec, isExecEffect]
          | false =>
            simp [h3, stage_cmd_noExec st s k (some old) fb hk hdep]

theorem stage_env_noExec (st : ConfigState) (s k : String)
    (dep : Option String) (fb : Fallback)
    (hk : isSensitive s k = false)
    (hdep : ∀ old, dep = some old → isSensitive s old = false) :
    noExec (stage_env st s k dep fb).2 = true := by
  unfold stage_env
  obtain ⟨o, ho⟩ := get_env_var_option_not_sensitive st s k hk
  rw [ho]
  cases o with
  | some v => simp [noExec]
  | none =>
    cases dep with
    | none =>
      simp [withEffs, noExec_append, stage_file_noExec st s k none fb hk hdep]
    | some old =>
      obtain ⟨o2, ho2⟩ := get_env_var_option_not_sensitive st s old (hdep old rfl)
      cases o2 with
      | some v => simp [ho2, withEffs, noExec_append, noExec, isExecEffect]
      | none =>
        simp [ho2, withEffs, noExec_append,
          stage_file_noExec st s k (some old) fb hk hdep]

/-- CLAIM C3 — for every (section, key) identity outside the sensitive
registry, resolution never executes an external command and never calls
the secret backend, whatever `_CMD` / `_SECRET` environment variables or
`key_cmd` / `key_secret` store entries exist. -/
theorem claim_C3_not_sensitive_skips (st : ConfigState)
    (section0 key0 : String) (fb : Fallback)
    (h : isSensitive (strLower section0) (strLower key0) = false) :
    noExec (get st section0 key0 fb).2 = true := by
  unfold get
  apply stage_env_noExec
  · exact h
  · intro old hold
    exact dep_old_not_sensitive _ _ _ hold h

/-- Witness for C3: a non-sensitive key with `_CMD` and `_SECRET`
environment variables set and `_cmd` / `_secret` store entries present
still resolves without executing anything. -/
theorem claim_C3_witness :
    noExec (get stC3w "mysect" "mykey" Fallback.absent).2 = true :=
  claim_C3_not_sensitive_skips stC3w "mysect" "mykey" Fallback.absent (by decide)

theorem expand_env_var_empty (st : ConfigState) : expand_env_var st "" = "" := by
  unfold expand_env_var
  simp

/-- CLAIM C10 — empty results are treated asymmetrically: a plain
environment variable set to the empty string is returned as the resolved
value, terminating the chain; a file-store `key_cmd` command printing the
empty string and a `key_secret` lookup yielding the empty string are both
treated as absent, and resolution falls through to the default table (the
recorded effects show the command and the backend were in fact
consulted). -/
theorem claim_C10_empty_value_asymmetry :
    (∀ (st : ConfigState) (S K : String) (fb : Fallback),
      strLower S = S → strLower K = K →
      alookup st.env (env_var_name S K) = some "" →
      get st S K fb = (Except.ok (some ""), [])) ∧
    (∀ (st : ConfigState) (S K cmd path u err : String)
       (fsect dsect : List (String × String)),
      strLower S = S → strLower K = K → S ≠ "" →
      deprecated_options S K = none →
      alookup st.env (env_var_name S K) = none →
      alookup st.env (env_var_name S K ++ "_CMD") = none →
      alookup st.env (env_var_name S K ++ "_SECRET") = none →
      alookup st.sections S = some fsect →
      alookup fsect K = none →
      isSensitive S K = true →
      alookup fsect (K ++ "_cmd") = some cmd →
      st.cmdRunner cmd = (0, "", err) →
      alookup fsect (K ++ "_secret") = some path →
      st.secretBackend path = some "" →
      alookup st.airflow_defaults S = some dsect →
      defaultsOptionLookup dsect K = some u →
      st.interp u = u →
      get st S K Fallback.absent =
        (Except.ok (some u),
         [Effect.ranCommand cmd, Effect.secretBackendCall path])) := by
  constructor
  · intro st S K fb hS hK he
    unfold get
    simp only [hS, hK]
    unfold stage_env
    rw [get_env_var_option_plain st S K "" he, expand_env_var_empty]
  · intro st S K cmd path u err fsect dsect hS hK hSne hdep he hec hes hfs hfk
      hsen hfcmd hrun hfsecret hsb hds hd hu
    have henv : get_env_var_option st S K = (Except.ok none, []) :=
      get_env_var_option_missing st S K he hec hes
    have hfh : super_has_option st S K = Except.ok false :=
      super_has_option_missing st S K fsect hSne hfs hfk
    have hcmd : get_cmd_option st S K =
        (Except.ok (some ""), [Effect.ranCommand cmd]) := by
      unfold get_cmd_option
      rw [hsen]
      rw [super_has_option_found st S (K ++ "_cmd") fsect hSne hfs cmd hfcmd]
      unfold super_get
      rw [hfs]
      simp [hfcmd, run_command, hrun]
    have hsec : get_secret_option st S K =
        (Except.ok (some ""), [Effect.secretBackendCall path]) := by
      unfold get_secret_option
      rw [hsen]
      rw [super_has_option_found st S (K ++ "_secret") fsect hSne hfs path hfsecret]
      unfold super_get
      rw [hfs]
      simp [hfsecret, get_config_value_from_secret_backend, hsb]
    have hdh : defaults_has_option st S K = Except.ok true := by
      unfold defaults_has_option
      rw [hds]
      simp [hSne, hd]
    have hdg : defaults_get st S K Fallback.absent = Except.ok (some u) := by
      unfold defaults_get
      rw [hds]
      simp [hd]
    unfold get
    simp only [hS, hK, hdep]
    unfold stage_env stage_file stage_cmd stage_secret stage_default
    rw [henv, hfh, hcmd, hsec, hdh, hdg]
    simp [effOk, withEffs, truthy, expand_env_var_fixed st u hu]

/-- Witness for C10 at concrete stores. -/
theorem claim_C10_witness :
    get stC10a "sec" "key" Fallback.absent = (Except.ok (some ""), []) ∧
    get stC10b "core" "fernet_key" Fallback.absent =
      (Except.ok (some "default-fk"),
       [Effect.ranCommand "fkcmd", Effect.secretBackendCall "fkpath"]) := by
  constructor
  · exact claim_C10_empty_value_asymmetry.1 stC10a "sec" "key" Fallback.absent
      (by decide) (by decide) (by decide)
  · exact claim_C10_empty_value_asymmetry.2 stC10b "core" "fernet_key"
      "fkcmd" "fkpath" "default-fk" ""
      [("fernet_key_cmd", "fkcmd"), ("fernet_key_secret", "fkpath")]
      [("fernet_key", "default-fk")]
      (by decide) (by decide) (by decide) (by decide) (by decide) (by decide)
      (by decide) (by decide) (by decide) (by decide) (by decide) (by decide)
      (by decide) (by decide) (by decide) (by decide) (by decide)

/-- CLAIM C5 counterexample — the migration trigger is the fully resolved
value (environment tier included), not the file value: here the file value
differs from the old literal, yet the migration fires, overwriting the
store, popping the environment variable and emitting the warning. -/
theorem claim_C5_counterexample :
    alookup stC5.sections "core" = some [("task_runner", "CustomRunner")] ∧
    "CustomRunner" ≠ "BashTaskRunner" ∧
    alookup stC5.env (env_var_name "core" "task_runner") = some "BashTaskRunner" ∧
    (validate stC5).1 = none ∧
    alookup (validate stC5).2.1.sections "core" =
      some [("task_runner", "StandardTaskRunner")] ∧
    alookup (validate stC5).2.1.env (env_var_name "core" "task_runner") = none ∧
    Effect.futureWarning "core" "task_runner" "BashTaskRunner"
      "StandardTaskRunner" "2.0" ∈ (validate stC5).2.2 := by
  decide

/-- CLAIM C5 (amended) — after the dependency checks pass, the
deprecated-value migration for `core/task_runner` fires exactly when the
fully resolved value (`get` with fallback `None`, so environment beats
file) equals the old literal: then the environment variable is popped, the
file store is overwritten with the replacement and a future-compatibility
warning naming old value, new value and version is emitted; otherwise
nothing is mutated. -/
theorem claim_C5_value_migration (st : ConfigState) (effs0 : List Effect)
    (hdep : validate_config_dependencies st = (Except.ok (), effs0)) :
    (∀ (v : Option String) (e1 : List Effect),
      get st "core" "task_runner" Fallback.pyNone = (Except.ok v, e1) →
      v ≠ some "BashTaskRunner" →
      validate st = (none, { st with is_validated := true }, effs0 ++ e1)) ∧
    (∀ (e1 : List Effect) (st2 : ConfigState),
      get st "core" "task_runner" Fallback.pyNone =
        (Except.ok (some "BashTaskRunner"), e1) →
      parser_set (removeEnvVar st (env_var_name "core" "task_runner"))
        "core" "task_runner" "StandardTaskRunner" = Except.ok st2 →
      validate st =
        (none, { st2 with is_validated := true },
         effs0 ++ (e1 ++ [Effect.futureWarning "core" "task_runner"
           "BashTaskRunner" "StandardTaskRunner" "2.0"]))) := by
  constructor
  · intro v e1 hget hne
    simp only [validate, hdep, deprecated_values, applyDeprecatedValues,
      applyDeprecatedList, applyDeprecatedEntry, hget]
    simp [hne]
  · intro e1 st2 hget hset
    simp only [validate, hdep, deprecated_values, applyDeprecatedValues,
      applyDeprecatedList, applyDeprecatedEntry, hget]
    simp [hset]

/-- Witness for the amended C5: the fire case at a concrete store. -/
theorem claim_C5_value_migration_witness :
    validate stC5 =
      (none, { wst2C5 with is_validated := true },
       [Effect.futureWarning "core" "task_runner" "BashTaskRunner"
         "StandardTaskRunner" "2.0"]) := by
  have h := (claim_C5_value_migration stC5 [] (by decide)).2 [] wst2C5
    (by decide) (by rfl)
  simpa using h

theorem parser_set_flag (st st2 : ConfigState) (s k v : String)
    (h : parser_set st s k v = Except.ok st2) :
    st2.is_validated = st.is_validated := by
  unfold parser_set at h
  rcases hl : alookup st.sections s with _ | sect
  · rw [hl] at h; cases h
  · rw [hl] at h
    injection h with h2
    rw [← h2]

theorem applyDeprecatedEntry_flag (s name : String)
    (info : String × String × String) (st : ConfigState) :
    (applyDeprecatedEntry s name info st).2.1.is_validated = st.is_validated := by
  unfold applyDeprecatedEntry
  rcases hg : get st s name Fallback.pyNone with ⟨r, effs⟩
  cases r with
  | error e => simp [hg]
  | ok v =>
    simp only [hg]
    by_cases hv : v = some info.1
    · rw [if_pos hv]
      rcases hp : parser_set (removeEnvVar st (env_var_name s name)) s name
          info.2.1 with e | st2
      · simp [hp, removeEnvVar]
      · simp [hp, parser_set_flag _ _ _ _ _ hp, removeEnvVar]
    · simp [hv]

theorem applyDeprecatedList_flag (s : String)
    (l : List (String × (String × String × String))) (st : ConfigState) :
    (applyDeprecatedList s l st).2.1.is_validated = st.is_validated := by
  induction l generalizing st with
  | nil => rfl
  | cons p rest ih =>
    obtain ⟨name, info⟩ := p
    unfold applyDeprecatedList
    rcases he : applyDeprecatedEntry s name info st with ⟨r, st1, effs⟩
    have hflag : st1.is_validated = st.is_validated := by
      have := applyDeprecatedEntry_flag s name info st
      rw [he] at this
      exact this
    cases r with
    | some e => simp [hflag]
    | none =>
      rcases hl : applyDeprecatedList s rest st1 with ⟨r2, st2, effs2⟩
      have hflag2 : st2.is_validated = st1.is_validated := by
        have := ih st1
        rw [hl] at this
        exact this
      simp [hl, hflag2, hflag]

theorem applyDeprecatedValues_flag
    (l : List (String × List (String × (String × String × String))))
    (st : ConfigState) :
    (applyDeprecatedValues l st).2.1.is_validated = st.is_validated := by
  induction l generalizing st with
  | nil => rfl
  | cons p rest ih =>
    obtain ⟨s, repl⟩ := p
    unfold applyDeprecatedValues
    rcases he : applyDeprecatedList s repl st with ⟨r, st1, effs⟩
    have hflag : st1.is_validated = st.is_validated := by
      have := applyDeprecatedList_flag s repl st
      rw [he] at this
      exact this
    cases r with
    | some e => simp [hflag]
    | none =>
      rcases hl : applyDeprecatedValues rest st1 with ⟨r2, st2, effs2⟩
      have hflag2 : st2.is_validated = st1.is_validated := by
        have := ih st1
        rw [hl] at this
        exact this
      simp [hl, hflag2, hflag]

/-- CLAIM C9 — a failed dependency check aborts the load operation with
the exception, leaving the store exactly as merged (no value migration,
flag untouched); a successful validation sets the `is_validated` flag, and
any validation error leaves the flag as it was. -/
theorem claim_C9_validation_flag :
    (∀ (st : ConfigState) (d : List (String × List (String × String)))
       (e : ConfigError) (effs : List Effect),
      validate_config_dependencies (mergeSections st d) = (Except.error e, effs) →
      read_dict st d = (some e, mergeSections st d, effs)) ∧
    (∀ (st st1 : ConfigState) (effs : List Effect),
      validate st = (none, st1, effs) → st1.is_validated = true) ∧
    (∀ (st st1 : ConfigState) (e : ConfigError) (effs : List Effect),
      validate st = (some e, st1, effs) → st1.is_validated = st.is_validated) := by
  refine ⟨?_, ?_, ?_⟩
  · intro st d e effs h
    unfold read_dict validate
    rw [h]
  · intro st st1 effs h
    unfold validate at h
    rcases hd : validate_config_dependencies st with ⟨r0, effs0⟩
    rw [hd] at h
    cases r0 with
    | error e0 => simp at h
    | ok u =>
      simp only at h
      rcases ha : applyDeprecatedValues deprecated_values st with ⟨r1, st2, effs1⟩
      rw [ha] at h
      cases r1 with
      | some e1 => simp at h
      | none =>
        simp at h
        obtain ⟨hstate, -⟩ := h
        rw [← hstate]
  · intro st st1 e effs h
    unfold validate at h
    rcases hd : validate_config_dependencies st with ⟨r0, effs0⟩
    rw [hd] at h
    cases r0 with
    | error e0 =>
      simp at h
      rw [← h.2.1]
    | ok u =>
      simp only at h
      rcases ha : applyDeprecatedValues deprecated_values st with ⟨r1, st2, effs1⟩
      rw [ha] at h
      cases r1 with
      | some e1 =>
        simp at h
        have := applyDeprecatedValues_flag deprecated_values st
        rw [ha] at this
        rw [← h.2.1]
        exact this
      | none => simp at h

/-- Witness for C9: a store violating the sqlite rule makes the load
operation fail with the dependency error, returning the merged store
unchanged (flag still false, no migration applied). -/
theorem claim_C9_witness :
    read_dict stC6 [] =
      (some (ConfigError.dependency
        "error: cannot use sqlite with the LocalExecutor"),
       mergeSections stC6 [], []) :=
  claim_C9_validation_flag.1 stC6 []
    (ConfigError.dependency "error: cannot use sqlite with the LocalExecutor")
    [] (by decide)

/-- CLAIM C6 — the four dependency rules are checked in the fixed order
(a) sqlite-with-real-executor, (b) owner-mode, (c) ldapgroup backend,
(d) mp_start_method, and validation stops at the first violation; in
particular a store violating both (a) and (b) fails with the
sqlite-related error. -/
theorem claim_C6_dependency_order (st : ConfigState)
    (ex conn om ab mp : String) (auth hasMp : Bool)
    (ee ec ea eo eb em em2 : List Effect)
    (hex : get_str st "core" "executor" = (Except.ok ex, ee))
    (hconn : get_str st "core" "sql_alchemy_conn" = (Except.ok conn, ec))
    (hauth : getboolean st "webserver" "authenticate" Fallback.absent =
      (Except.ok auth, ea))
    (hom : get_str st "webserver" "owner_mode" = (Except.ok om, eo))
    (hab : get_str st "webserver" "auth_backend" = (Except.ok ab, eb))
    (hmp : has_option st "core" "mp_start_method" = (Except.ok hasMp, em))
    (hmpv : hasMp = true →
      get_str st "core" "mp_start_method" = (Except.ok mp, em2)) :
    ((ex ≠ "DebugExecutor" ∧ ex ≠ "SequentialExecutor") →
      strContains conn "sqlite" = true →
      (validate_config_dependencies st).1 =
        Except.error (ConfigError.dependency
          ("error: cannot use sqlite with the " ++ ex))) ∧
    ((¬(ex ≠ "DebugExecutor" ∧ ex ≠ "SequentialExecutor") ∨
        strContains conn "sqlite" = false) →
      auth = true → (om ≠ "user" ∧ om ≠ "ldapgroup") →
      (validate_config_dependencies st).1 =
        Except.error (ConfigError.dependency
          ("error: owner_mode option should be either \x27user\x27 or " ++
           "\x27ldapgroup\x27 when filtering by owner is set"))) ∧
    ((¬(ex ≠ "DebugExecutor" ∧ ex ≠ "SequentialExecutor") ∨
        strContains conn "sqlite" = false) →
      (auth = false ∨ ¬(om ≠ "user" ∧ om ≠ "ldapgroup")) →
      auth = true → strLower om = "ldapgroup" →
      ab ≠ "airflow.contrib.auth.backends.ldap_auth" →
      (validate_config_dependencies st).1 =
        Except.error (ConfigError.dependency
          ("error: attempt at using ldapgroup filtering without " ++
           "using the Ldap backend"))) ∧
    ((¬(ex ≠ "DebugExecutor" ∧ ex ≠ "SequentialExecutor") ∨
        strContains conn "sqlite" = false) →
      (auth = false ∨ ¬(om ≠ "user" ∧ om ≠ "ldapgroup")) →
      (auth = false ∨ strLower om ≠ "ldapgroup" ∨
        ab = "airflow.contrib.auth.backends.ldap_auth") →
      hasMp = true → st.startMethods.contains mp = false →
      (validate_config_dependencies st).1 =
        Except.error (ConfigError.dependency
          ("mp_start_method should not be " ++ mp ++
           ". Possible values are " ++ strJoin ", " st.startMethods))) ∧
    ((¬(ex ≠ "DebugExecutor" ∧ ex ≠ "SequentialExecutor") ∨
        strContains conn "sqlite" = false) →
      (auth = false ∨ ¬(om ≠ "user" ∧ om ≠ "ldapgroup")) →
      (auth = false ∨ strLower om ≠ "ldapgroup" ∨
        ab = "airflow.contrib.auth.backends.ldap_auth") →
      (hasMp = false ∨ st.startMethods.contains mp = true) →
      (validate_config_dependencies st).1 = Except.ok ()) := by
  have pass_sqlite : ∀ next : EffM Unit,
      (¬(ex ≠ "DebugExecutor" ∧ ex ≠ "SequentialExecutor") ∨
        strContains conn "sqlite" = false) →
      (dependency_check_sqlite st next).1 = next.1 := by
    intro next hpA
    unfold dependency_check_sqlite
    simp only [hex]
    by_cases hA1 : ex ≠ "DebugExecutor" ∧ ex ≠ "SequentialExecutor"
    · simp only [if_pos hA1, hconn]
      rcases hpA with hpA | hpA
      · exact absurd hA1 hpA
      · simp [hpA, withEffs]
    · simp [if_neg hA1, effOk, withEffs]
  have fail_sqlite : (ex ≠ "DebugExecutor" ∧ ex ≠ "SequentialExecutor") →
      strContains conn "sqlite" = true → ∀ next : EffM Unit,
      (dependency_check_sqlite st next).1 =
        Except.error (ConfigError.dependency
          ("error: cannot use sqlite with the " ++ ex)) := by
    intro hA1 hsql next
    unfold dependency_check_sqlite
    simp only [hex, if_pos hA1, hconn, hsql]
    simp [hex, withEffs]
  have pass_owner : ∀ next : EffM Unit,
      (auth = false ∨ ¬(om ≠ "user" ∧ om ≠ "ldapgroup")) →
      (dependency_check_owner st next).1 = next.1 := by
    intro next hpB
    unfold dependency_check_owner
    cases auth with
    | false => simp [hauth, withEffs]
    | true =>
      rcases hpB with hf | hom2
      · simp at hf
      · simp only [hauth, hom]
        rw [if_neg hom2]
        simp [withEffs]
  have fail_owner : auth = true → (om ≠ "user" ∧ om ≠ "ldapgroup") →
      ∀ next : EffM Unit,
      (dependency_check_owner st next).1 =
        Except.error (ConfigError.dependency
          ("error: owner_mode option should be either \x27user\x27 or " ++
           "\x27ldapgroup\x27 when filtering by owner is set")) := by
    intro hat hom2 next
    subst hat
    unfold dependency_check_owner
    simp only [hauth, hom, if_pos hom2]
  have pass_ldap : ∀ next : EffM Unit,
      (auth = false ∨ strLower om ≠ "ldapgroup" ∨
        ab = "airflow.contrib.auth.backends.ldap_auth") →
      (dependency_check_ldap st next).1 = next.1 := by
    intro next hpC
    unfold dependency_check_ldap
    cases auth with
    | false => simp [hauth, withEffs]
    | true =>
      rcases hpC with hf | homne | habeq
      · simp at hf
      · simp only [hauth, hom]
        rw [if_neg homne]
        simp [withEffs]
      · simp only [hauth, hom]
        by_cases homeq : strLower om = "ldapgroup"
        · rw [if_pos homeq]
          simp only [hab]
          rw [if_neg (fun hne => hne habeq)]
          simp [withEffs]
        · rw [if_neg homeq]
          simp [withEffs]
  have fail_ldap : auth = true → strLower om = "ldapgroup" →
      ab ≠ "airflow.contrib.auth.backends.ldap_auth" → ∀ next : EffM Unit,
      (dependency_check_ldap st next).1 =
        Except.error (ConfigError.dependency
          ("error: attempt at using ldapgroup filtering without " ++
           "using the Ldap backend")) := by
    intro hat homeq habne next
    subst hat
    unfold dependency_check_ldap
    simp only [hauth, hom, if_pos homeq, hab, if_pos habne]
  have mp_fail : hasMp = true → st.startMethods.contains mp = false →
      (dependency_check_mp st).1 =
        Except.error (ConfigError.dependency
          ("mp_start_method should not be " ++ mp ++
           ". Possible values are " ++ strJoin ", " st.startMethods)) := by
    intro hm hcont
    subst hm
    have hni : ¬ mp ∈ st.startMethods := by simpa using hcont
    unfold dependency_check_mp
    simp [hmp, hmpv rfl, hni]
  have mp_ok : (hasMp = false ∨ st.startMethods.contains mp = true) →
      (dependency_check_mp st).1 = Except.ok () := by
    intro hok
    unfold dependency_check_mp
    rcases hok with hf | hcont
    · subst hf
      simp [hmp]
    · cases hasMp with
      | false => simp [hmp]
      | true =>
        have hyes : mp ∈ st.startMethods := by simpa using hcont
        simp [hmp, hmpv rfl, hyes]
  refine ⟨?_, ?_, ?_, ?_, ?_⟩
  · intro h1 h2
    unfold validate_config_dependencies
    exact fail_sqlite h1 h2 _
  · intro hpA h1 h2
    unfold validate_config_dependencies
    rw [pass_sqlite _ hpA]
    exact fail_owner h1 h2 _
  · intro hpA hpB h1 h2 h3
    unfold validate_config_dependencies
    rw [pass_sqlite _ hpA, pass_owner _ hpB]
    exact fail_ldap h1 h2 h3 _
  · intro hpA hpB hpC h1 h2
    unfold validate_config_dependencies
    rw [pass_sqlite _ hpA, pass_owner _ hpB, pass_ldap _ hpC]
    exact mp_fail h1 h2
  · intro hpA hpB hpC h1
    unfold validate_config_dependencies
    rw [pass_sqlite _ hpA, pass_owner _ hpB, pass_ldap _ hpC]
    exact mp_ok h1

/-- Witness for C6: a store violating both the sqlite rule and the
owner-mode rule fails with the sqlite-related error. -/
theorem claim_C6_witness :
    (validate_config_dependencies stC6).1 =
      Except.error (ConfigError.dependency
        ("error: cannot use sqlite with the " ++ "LocalExecutor")) := by
  have h := (claim_C6_dependency_order stC6 "LocalExecutor" "sqlite-path"
    "bogus" "x" "" true false [] [] [] [] [] [] []
    (by decide) (by decide) (by decide) (by decide) (by decide) (by decide)
    (fun hc => nomatch hc)).1 (by decide) (by decide)
  exact h

/-- CLAIM C8 counterexample — two stores differing only in the casing of a
file-backed stored key resolve differently: `optionxform` preserves case,
while `get` lower-cases the queried key, so the store whose key is saved
as `MyKey` fails to resolve at all. -/
theorem claim_C8_counterexample :
    alookup stC8a.sections "core" = some [("MyKey", "val")] ∧
    alookup stC8b.sections "core" = some [("mykey", "val")] ∧
    get stC8b "core" "MyKey" Fallback.absent = (Except.ok (some "val"), []) ∧
    get stC8a "core" "MyKey" Fallback.absent =
      (Except.error (ConfigError.notFound "core" "mykey"),
       [Effect.logMissingWarning "core" "mykey"]) := by
  decide

theorem alookup_map_values {α : Type} (l : List (String × α)) (s : String)
    (g : α → α) :
    alookup (l.map (fun p => (p.1, g p.2))) s = (alookup l s).map g := by
  induction l with
  | nil => rfl
  | cons p t ih =>
    obtain ⟨a, b⟩ := p
    by_cases h : a = s
    · subst h
      simp [alookup, ih]
    · simp [alookup, h, ih]

theorem defaultsOptionLookup_mapKeys (sect : List (String × String))
    (f : String → String) (k : String)
    (hf : ∀ x, strLower (f x) = strLower x) :
    defaultsOptionLookup (sect.map (fun q => (f q.1, q.2))) k =
      defaultsOptionLookup sect k := by
  induction sect with
  | nil => rfl
  | cons p t ih =>
    obtain ⟨a, b⟩ := p
    unfold defaultsOptionLookup
    simp only [List.map_cons, List.find?]
    rw [hf a]
    cases hc : (strLower a == strLower k) with
    | true => rfl
    | false => exact ih

theorem defaults_has_option_mapKeys (st : ConfigState) (f : String → String)
    (hf : ∀ x, strLower (f x) = strLower x) (s k : String) :
    defaults_has_option (mapDefaultsKeys st f) s k =
      defaults_has_option st s k := by
  unfold defaults_has_option
  by_cases hs : s = ""
  · simp [hs]
  · simp only [hs, if_false]
    have hl : alookup (mapDefaultsKeys st f).airflow_defaults s =
        (alookup st.airflow_defaults s).map
          (fun sect => sect.map (fun q => (f q.1, q.2))) := by
      unfold mapDefaultsKeys
      exact alookup_map_values st.airflow_defaults s _
    rw [hl]
    rcases alookup st.airflow_defaults s with _ | sect
    · rfl
    · simp [defaultsOptionLookup_mapKeys sect f k hf]

theorem defaults_get_mapKeys (st : ConfigState) (f : String → String)
    (hf : ∀ x, strLower (f x) = strLower x) (s k : String) (fb : Fallback) :
    defaults_get (mapDefaultsKeys st f) s k fb = defaults_get st s k fb := by
  unfold defaults_get
  have hl : alookup (mapDefaultsKeys st f).airflow_defaults s =
      (alookup st.airflow_defaults s).map
        (fun sect => sect.map (fun q => (f q.1, q.2))) := by
    unfold mapDefaultsKeys
    exact alookup_map_values st.airflow_defaults s _
  rw [hl]
  rcases alookup st.airflow_defaults s with _ | sect
  · rfl
  · simp [defaultsOptionLookup_mapKeys sect f k hf]

theorem stage_default_mapKeys (st : ConfigState) (f : String → String)
    (hf : ∀ x, strLower (f x) = strLower x) :
    ∀ (s k : String) (fb : Fallback),
      stage_default (mapDefaultsKeys st f) s k fb = stage_default st s k fb := by
  intro s k fb
  unfold stage_default
  rw [defaults_has_option_mapKeys st f hf s k, defaults_get_mapKeys st f hf s k fb,
      show expand_env_var (mapDefaultsKeys st f) = expand_env_var st from rfl]

theorem stage_secret_mapKeys (st : ConfigState) (f : String → String)
    (hf : ∀ x, strLower (f x) = strLower x) :
    ∀ (s k : String) (dep : Option String) (fb : Fallback),
      stage_secret (mapDefaultsKeys st f) s k dep fb =
        stage_secret st s k dep fb := by
  intro s k dep fb
  unfold stage_secret
  rw [show get_secret_option (mapDefaultsKeys st f) = get_secret_option st from rfl]
  simp only [stage_default_mapKeys st f hf]

theorem stage_cmd_mapKeys (st : ConfigState) (f : String → String)
    (hf : ∀ x, strLower (f x) = strLower x) :
    ∀ (s k : String) (dep : Option String) (fb : Fallback),
      stage_cmd (mapDefaultsKeys st f) s k dep fb = stage_cmd st s k dep fb := by
  intro s k dep fb
  unfold stage_cmd
  rw [show get_cmd_option (mapDefaultsKeys st f) = get_cmd_option st from rfl]
  simp only [stage_secret_mapKeys st f hf]

theorem stage_file_mapKeys (st : ConfigState) (f : String → String)
    (hf : ∀ x, strLower (f x) = strLower x) :
    ∀ (s k : String) (dep : Option String) (fb : Fallback),
      stage_file (mapDefaultsKeys st f) s k dep fb = stage_file st s k dep fb := by
  intro s k dep fb
  unfold stage_file
  rw [show super_has_option (mapDefaultsKeys st f) = super_has_option st from rfl,
      show super_get (mapDefaultsKeys st f) = super_get st from rfl,
      show expand_env_var (mapDefaultsKeys st f) = expand_env_var st from rfl]
  simp only [stage_cmd_mapKeys st f hf]

theorem stage_env_mapKeys (st : ConfigState) (f : String → String)
    (hf : ∀ x, strLower (f x) = strLower x) :
    ∀ (s k : String) (dep : Option String) (fb : Fallback),
      stage_env (mapDefaultsKeys st f) s k dep fb = stage_env st s k dep fb := by
  intro s k dep fb
  unfold stage_env
  rw [show get_env_var_option (mapDefaultsKeys st f) = get_env_var_option st from rfl]
  simp only [stage_file_mapKeys st f hf]

/-- CLAIM C8 (amended) — lookup is case-insensitive in the section/key
arguments (both are lower-cased on entry), and insensitive to the stored
casing of default-table keys (the vanilla parser normalises them); but
file-backed stored keys are matched verbatim, so only a lower-case stored
file key can be found.  Stored values are returned with their original
casing. -/
theorem claim_C8_case_insensitivity :
    (∀ (st : ConfigState) (s1 k1 s2 k2 : String) (fb : Fallback),
      strLower s1 = strLower s2 → strLower k1 = strLower k2 →
      get st s1 k1 fb = get st s2 k2 fb) ∧
    (∀ (st : ConfigState) (f : String → String) (s k : String) (fb : Fallback),
      (∀ x, strLower (f x) = strLower x) →
      get (mapDefaultsKeys st f) s k fb = get st s k fb) := by
  constructor
  · intro st s1 k1 s2 k2 fb hs hk
    unfold get
    rw [hs, hk]
  · intro st f s k fb hf
    unfold get
    rw [stage_env_mapKeys st f hf]

/-- Witness for the amended C8: re-cased arguments and a re-cased
default-table key leave resolution unchanged. -/
theorem claim_C8_witness :
    get stC8b "CORE" "MyKey" Fallback.absent =
      get stC8b "core" "mykey" Fallback.absent ∧
    get (mapDefaultsKeys stC7w recaseDKey) "core" "dkey" Fallback.absent =
      get stC7w "core" "dkey" Fallback.absent := by
  constructor
  · exact claim_C8_case_insensitivity.1 stC8b "CORE" "MyKey" "core" "mykey"
      Fallback.absent (by decide) (by decide)
  · refine claim_C8_case_insensitivity.2 stC7w recaseDKey "core" "dkey"
      Fallback.absent ?_
    intro x
    unfold recaseDKey
    by_cases h : x = "dkey"
    · subst h
      decide
    · rw [if_neg h]


/-- `_get_env_var_option` can only fail through `run_command`. -/
theorem env_error_shape (st : ConfigState) (s k : String) (e : ConfigError)
    (effs : List Effect) (h : get_env_var_option st s k = (Except.error e, effs)) :
    ∃ c r o s2, e = ConfigError.cmdFailed c r o s2 := by
  unfold get_env_var_option env_secret_branch at h
  rcases h1 : alookup st.env (env_var_name s k) with _ | v
  case some => simp [h1, effOk] at h
  rcases h2 : alookup st.env (env_var_name s k ++ "_CMD") with _ | cmd
  · rcases h3 : alookup st.env (env_var_name s k ++ "_SECRET") with _ | p
    · simp [h1, h2, h3, effOk] at h
    · cases hsen : isSensitive s k <;>
        simp [h1, h2, h3, hsen, effOk, get_config_value_from_secret_backend] at h
  · cases hsen : isSensitive s k
    · rcases h3 : alookup st.env (env_var_name s k ++ "_SECRET") with _ | p
      · simp [h1, h2, h3, hsen, effOk] at h
      · simp [h1, h2, h3, hsen, effOk, get_config_value_from_secret_backend] at h
    · rcases hr : run_command st cmd with ⟨rr, er⟩
      cases rr with
      | ok out => simp [h1, h2, hsen, hr, effOk] at h
      | error e2 =>
        have he2 : ∃ c r o s2, e2 = ConfigError.cmdFailed c r o s2 := by
          unfold run_command at hr
          by_cases hc : (st.cmdRunner cmd).1 = 0
          · simp [hc] at hr
          · simp [hc] at hr
            exact ⟨cmd, _, _, _, hr.1.symm⟩
        simp [h1, h2, hsen, hr, effOk] at h
        obtain ⟨c, r, o, s2, he⟩ := he2
        exact ⟨c, r, o, s2, by rw [← h.1, he]⟩


theorem run_command_error_shape (st : ConfigState) (cmd : String)
    (e : ConfigError) (effs : List Effect)
    (h : run_command st cmd = (Except.error e, effs)) :
    ∃ c r o s2, e = ConfigError.cmdFailed c r o s2 := by
  unfold run_command at h
  by_cases hc : (st.cmdRunner cmd).1 = 0
  · simp [hc] at h
  · simp [hc] at h
    exact ⟨cmd, _, _, _, h.1.symm⟩

theorem super_has_option_eval (st : ConfigState) (S : String)
    (fsect : List (String × String)) (hSne : S ≠ "")
    (hfs : alookup st.sections S = some fsect) (x : String) :
    super_has_option st S x = Except.ok (alookup fsect x).isSome := by
  unfold super_has_option
  simp [hSne, hfs]

theorem super_get_eval (st : ConfigState) (S : String)
    (fsect : List (String × String))
    (hfs : alookup st.sections S = some fsect) (x v : String)
    (hx : alookup fsect x = some v) :
    super_get st S x = Except.ok v := by
  unfold super_get
  rw [hfs]
  simp [hx]

theorem cmd_result_shape (st : ConfigState) (S K : String)
    (fsect : List (String × String)) (hSne : S ≠ "")
    (hfs : alookup st.sections S = some fsect) :
    (∃ o effs, get_cmd_option st S K = (Except.ok o, effs)) ∨
    (∃ c r o s2 effs, get_cmd_option st S K =
      (Except.error (ConfigError.cmdFailed c r o s2), effs)) := by
  unfold get_cmd_option
  cases hsen : isSensitive S K
  · exact Or.inl ⟨none, [], by simp [hsen, effOk]⟩
  · rcases hc : alookup fsect (K ++ "_cmd") with _ | cmd
    · refine Or.inl ⟨none, [], ?_⟩
      simp [hsen, super_has_option_eval st S fsect hSne hfs, hc, effOk]
    · rcases hr : run_command st cmd with ⟨rr, er⟩
      cases rr with
      | ok out =>
        refine Or.inl ⟨some out, er, ?_⟩
        simp [hsen, super_has_option_eval st S fsect hSne hfs, hc,
          super_get_eval st S fsect hfs _ cmd hc, hr]
      | error e2 =>
        obtain ⟨c, r, o, s2, he⟩ := run_command_error_shape st cmd e2 er hr
        subst he
        refine Or.inr ⟨c, r, o, s2, er, ?_⟩
        simp [hsen, super_has_option_eval st S fsect hSne hfs, hc,
          super_get_eval st S fsect hfs _ cmd hc, hr]

theorem secret_result_shape (st : ConfigState) (S K : String)
    (fsect : List (String × String)) (hSne : S ≠ "")
    (hfs : alookup st.sections S = some fsect) :
    ∃ o effs, get_secret_option st S K = (Except.ok o, effs) := by
  unfold get_secret_option
  cases hsen : isSensitive S K
  · exact ⟨none, [], by simp [hsen, effOk]⟩
  · rcases hc : alookup fsect (K ++ "_secret") with _ | path
    · refine ⟨none, [], ?_⟩
      simp [hsen, super_has_option_eval st S fsect hSne hfs, hc, effOk]
    · refine ⟨st.secretBackend path, [Effect.secretBackendCall path], ?_⟩
      simp [hsen, super_has_option_eval st S fsect hSne hfs, hc,
        super_get_eval st S fsect hfs _ path hc,
        get_config_value_from_secret_backend]

/-- When the environment group, the exact file key and both indirections
miss, `get` reduces to the default stage (collecting the tier effects). -/
theorem chain_to_default (st : ConfigState) (S K : String) (fb : Fallback)
    (fsect : List (String × String)) (eenv ec es : List Effect)
    (o1 o2 : Option String)
    (hS : strLower S = S) (hK : strLower K = K) (hSne : S ≠ "")
    (hdep : deprecated_options S K = none)
    (hfs : alookup st.sections S = some fsect)
    (henv : get_env_var_option st S K = (Except.ok none, eenv))
    (hlk : alookup fsect K = none)
    (hcmd : get_cmd_option st S K = (Except.ok o1, ec)) (ht1 : truthy o1 = false)
    (hsec : get_secret_option st S K = (Except.ok o2, es)) (ht2 : truthy o2 = false) :
    get st S K fb =
      withEffs eenv (withEffs ec (withEffs es (stage_default st S K fb))) := by
  unfold get
  simp only [hS, hK, hdep]
  unfold stage_env stage_file stage_cmd stage_secret
  rw [henv, super_has_option_eval st S fsect hSne hfs K, hlk, hcmd, hsec]
  simp [ht1, ht2, withEffs]

theorem defaults_has_option_eval (st : ConfigState) (S K : String)
    (dsect : List (String × String)) (hSne : S ≠ "")
    (hds : alookup st.airflow_defaults S = some dsect) :
    defaults_has_option st S K = Except.ok (defaultsOptionLookup dsect K).isSome := by
  unfold defaults_has_option
  simp [hSne, hds]

theorem stage_default_hit (st : ConfigState) (S K : String)
    (dsect : List (String × String)) (u : String) (hSne : S ≠ "")
    (hds : alookup st.airflow_defaults S = some dsect)
    (hdl : defaultsOptionLookup dsect K = some u) (fb : Fallback) :
    stage_default st S K fb = (Except.ok (some (expand_env_var st u)), []) := by
  unfold stage_default
  rw [defaults_has_option_eval st S K dsect hSne hds, hdl]
  rw [show defaults_get st S K fb = Except.ok (some u) from by
    unfold defaults_get
    simp [hds, hdl]]
  simp [effOk]

theorem stage_default_miss (st : ConfigState) (S K : String)
    (dsect : List (String × String)) (hSne : S ≠ "")
    (hds : alookup st.airflow_defaults S = some dsect)
    (hdl : defaultsOptionLookup dsect K = none) :
    stage_default st S K Fallback.absent =
      (Except.error (ConfigError.notFound S K), [Effect.logMissingWarning S K]) ∧
    stage_default st S K Fallback.unset =
      (Except.error (ConfigError.noOption S K), []) ∧
    stage_default st S K Fallback.pyNone = (Except.ok none, []) ∧
    ∀ f, stage_default st S K (Fallback.str f) =
      (Except.ok (some (expand_env_var st f)), []) := by
  refine ⟨?_, ?_, ?_, ?_⟩
  · unfold stage_default
    rw [defaults_has_option_eval st S K dsect hSne hds, hdl]
    simp
  · unfold stage_default
    rw [defaults_has_option_eval st S K dsect hSne hds, hdl]
    rw [show defaults_get st S K Fallback.unset =
        Except.error (ConfigError.noOption S K) from by
      unfold defaults_get
      simp [hds, hdl]]
    simp [effErr]
  · unfold stage_default
    rw [defaults_has_option_eval st S K dsect hSne hds, hdl]
    rw [show defaults_get st S K Fallback.pyNone = Except.ok none from by
      unfold defaults_get
      simp [hds, hdl]]
    simp [effOk]
  · intro f
    unfold stage_default
    rw [defaults_has_option_eval st S K dsect hSne hds, hdl]
    rw [show defaults_get st S K (Fallback.str f) = Except.ok (some f) from by
      unfold defaults_get
      simp [hds, hdl]]
    simp [effOk]


theorem notFound_forward (st : ConfigState) (S K : String) (fb : Fallback)
    (fsect dsect : List (String × String))
    (hS : strLower S = S) (hK : strLower K = K) (hSne : S ≠ "")
    (hdep : deprecated_options S K = none)
    (hfs : alookup st.sections S = some fsect)
    (hds : alookup st.airflow_defaults S = some dsect)
    (hnf : (get st S K fb).1 = Except.error (ConfigError.notFound S K)) :
    ∃ (eenv ec es : List Effect) (o1 o2 : Option String),
      get_env_var_option st S K = (Except.ok none, eenv) ∧
      alookup fsect K = none ∧
      get_cmd_option st S K = (Except.ok o1, ec) ∧ truthy o1 = false ∧
      get_secret_option st S K = (Except.ok o2, es) ∧ truthy o2 = false ∧
      defaultsOptionLookup dsect K = none ∧
      fb = Fallback.absent := by
  have hg0 : get st S K fb = stage_env st S K none fb := by
    unfold get
    simp only [hS, hK, hdep]
  rw [hg0] at hnf
  unfold stage_env at hnf
  rcases henv : get_env_var_option st S K with ⟨renv, eenv⟩
  rw [henv] at hnf
  cases renv with
  | error e =>
    obtain ⟨c, r, o, s2, he⟩ := env_error_shape st S K e eenv henv
    subst he
    simp at hnf
  | ok o =>
    cases o with
    | some v => simp at hnf
    | none =>
      have hnf2 : (stage_file st S K none fb).1 =
          Except.error (ConfigError.notFound S K) := hnf
      unfold stage_file at hnf2
      rw [super_has_option_eval st S fsect hSne hfs K] at hnf2
      rcases hlk : alookup fsect K with _ | w
      case some =>
        simp [hlk, super_get_eval st S fsect hfs K w hlk, effOk] at hnf2
      rw [hlk] at hnf2
      have hnf3 : (stage_cmd st S K none fb).1 =
          Except.error (ConfigError.notFound S K) := hnf2
      rcases cmd_result_shape st S K fsect hSne hfs with
        ⟨o1, ec, hcmd⟩ | ⟨c, r, o, s2, ec, hcmd⟩
      swap
      · unfold stage_cmd at hnf3
        rw [hcmd] at hnf3
        simp at hnf3
      unfold stage_cmd at hnf3
      rw [hcmd] at hnf3
      cases ht1 : truthy o1
      case true =>
        simp [ht1] at hnf3
      simp only [ht1, Bool.false_eq_true, if_false] at hnf3
      have hnf4 : (stage_secret st S K none fb).1 =
          Except.error (ConfigError.notFound S K) := hnf3
      obtain ⟨o2, es, hsec⟩ := secret_result_shape st S K fsect hSne hfs
      unfold stage_secret at hnf4
      rw [hsec] at hnf4
      cases ht2 : truthy o2
      case true =>
        simp [ht2] at hnf4
      simp only [ht2, Bool.false_eq_true, if_false] at hnf4
      have hnf5 : (stage_default st S K fb).1 =
          Except.error (ConfigError.notFound S K) := hnf4
      unfold stage_default at hnf5
      rw [defaults_has_option_eval st S K dsect hSne hds] at hnf5
      rcases hdl : defaultsOptionLookup dsect K with _ | u
      case some =>
        rw [hdl] at hnf5
        simp [show defaults_get st S K fb = Except.ok (some u) from by
          unfold defaults_get
          simp [hds, hdl], effOk] at hnf5
      rw [hdl] at hnf5
      cases fb with
      | absent =>
        refine ⟨eenv, ec, es, o1, o2, ?_, ?_, ?_, ?_, ?_, ?_, ?_, rfl⟩ <;>
          first | rfl | assumption
      | unset =>
        simp [show defaults_get st S K Fallback.unset =
            Except.error (ConfigError.noOption S K) from by
          unfold defaults_get
          simp [hds, hdl], effErr] at hnf5
      | pyNone =>
        simp [show defaults_get st S K Fallback.pyNone = Except.ok none from by
          unfold defaults_get
          simp [hds, hdl], effOk] at hnf5
      | str f =>
        simp [show defaults_get st S K (Fallback.str f) = Except.ok (some f) from by
          unfold defaults_get
          simp [hds, hdl], effOk] at hnf5


/-- CLAIM C4 (amended) — provided the queried section exists in the
file-backed store and in the default table (and the key has no
deprecated-name mapping), `get` raises the not-found
`AirflowConfigException` naming the lowered section and key exactly when
every tier misses (environment group `None`, no exact file key, command
and secret indirections falsy) and no fallback keyword was supplied; the
error comes with the logged warning.  With a fallback string supplied, the
fallback is returned even though the default table lacks the key.  (When
the section is missing from either store, a `NoSectionError` propagates
instead — see the counterexample.) -/
theorem claim_C4_not_found (st : ConfigState) (S K : String) (fb : Fallback)
    (fsect dsect : List (String × String))
    (hS : strLower S = S) (hK : strLower K = K) (hSne : S ≠ "")
    (hdep : deprecated_options S K = none)
    (hfs : alookup st.sections S = some fsect)
    (hds : alookup st.airflow_defaults S = some dsect) :
    ((get st S K fb).1 = Except.error (ConfigError.notFound S K) ↔
      (∃ (eenv ec es : List Effect) (o1 o2 : Option String),
        get_env_var_option st S K = (Except.ok none, eenv) ∧
        alookup fsect K = none ∧
        get_cmd_option st S K = (Except.ok o1, ec) ∧ truthy o1 = false ∧
        get_secret_option st S K = (Except.ok o2, es) ∧ truthy o2 = false ∧
        defaultsOptionLookup dsect K = none ∧
        fb = Fallback.absent)) ∧
    (∀ (f : String) (eenv ec es : List Effect) (o1 o2 : Option String),
      st.interp f = f →
      get_env_var_option st S K = (Except.ok none, eenv) →
      alookup fsect K = none →
      get_cmd_option st S K = (Except.ok o1, ec) → truthy o1 = false →
      get_secret_option st S K = (Except.ok o2, es) → truthy o2 = false →
      defaultsOptionLookup dsect K = none →
      (get st S K (Fallback.str f)).1 = Except.ok (some f)) ∧
    ((get st S K fb).1 = Except.error (ConfigError.notFound S K) →
      Effect.logMissingWarning S K ∈ (get st S K fb).2) := by
  refine ⟨⟨?_, ?_⟩, ?_, ?_⟩
  · intro hnf
    exact notFound_forward st S K fb fsect dsect hS hK hSne hdep hfs hds hnf
  · rintro ⟨eenv, ec, es, o1, o2, henv, hlk, hcmd, ht1, hsec, ht2, hdl, hfb⟩
    subst hfb
    rw [chain_to_default st S K Fallback.absent fsect eenv ec es o1 o2
      hS hK hSne hdep hfs henv hlk hcmd ht1 hsec ht2]
    rw [withEffs_fst, withEffs_fst, withEffs_fst,
      (stage_default_miss st S K dsect hSne hds hdl).1]
  · intro f eenv ec es o1 o2 hintf henv hlk hcmd ht1 hsec ht2 hdl
    rw [chain_to_default st S K (Fallback.str f) fsect eenv ec es o1 o2
      hS hK hSne hdep hfs henv hlk hcmd ht1 hsec ht2]
    rw [withEffs_fst, withEffs_fst, withEffs_fst,
      (stage_default_miss st S K dsect hSne hds hdl).2.2.2 f]
    simp [expand_env_var_fixed st f hintf]
  · intro hnf
    obtain ⟨eenv, ec, es, o1, o2, henv, hlk, hcmd, ht1, hsec, ht2, hdl, hfb⟩ :=
      notFound_forward st S K fb fsect dsect hS hK hSne hdep hfs hds hnf
    subst hfb
    rw [chain_to_default st S K Fallback.absent fsect eenv ec es o1 o2
      hS hK hSne hdep hfs henv hlk hcmd ht1 hsec ht2]
    simp [withEffs, (stage_default_miss st S K dsect hSne hds hdl).1]

/-- CLAIM C4 counterexample — with the queried section absent from the
file-backed store, `get` raises `NoSectionError` rather than the not-found
`AirflowConfigException`, even though no tier yields a value; and it does
so even when a fallback keyword was supplied, instead of returning the
fallback. -/
theorem claim_C4_counterexample :
    get stC4 "nosec" "nokey" (Fallback.str "fb") =
      (Except.error (ConfigError.noSection "nosec"), []) ∧
    get stC4 "nosec" "nokey" Fallback.absent =
      (Except.error (ConfigError.noSection "nosec"), []) := by
  decide

/-- Witness for the amended C4 at a concrete store whose section exists
both in the file-backed store and in the default table. -/
theorem claim_C4_witness :
    (get stC4w "sec" "kk" Fallback.absent).1 =
      Except.error (ConfigError.notFound "sec" "kk") ∧
    (get stC4w "sec" "kk" (Fallback.str "fellback")).1 =
      Except.ok (some "fellback") := by
  constructor
  · exact ((claim_C4_not_found stC4w "sec" "kk" Fallback.absent [] []
      (by decide) (by decide) (by decide) (by decide) (by decide)
      (by decide)).1).mpr
      ⟨[], [], [], none, none, by decide, by decide, by decide, by decide,
       by decide, by decide, by decide, rfl⟩
  · exact (claim_C4_not_found stC4w "sec" "kk" (Fallback.str "fellback") [] []
      (by decide) (by decide) (by decide) (by decide) (by decide)
      (by decide)).2.1 "fellback" [] [] [] none none
      (by decide) (by decide) (by decide) (by decide) (by decide) (by decide)
      (by decide) (by decide)



theorem alookup_assocSet_self {α : Type} (l : List (String × α)) (k : String) (v : α) :
    alookup (assocSet l k v) k = some v := by
  induction l with
  | nil => simp [assocSet, alookup]
  | cons p t ih =>
    obtain ⟨a, b⟩ := p
    by_cases h : a = k
    · subst h
      simp [assocSet, alookup]
    · simp [assocSet, alookup, h, ih]

theorem alookup_assocSet_other {α : Type} (l : List (String × α)) (k : String)
    (v : α) (x : String) (h : x ≠ k) :
    alookup (assocSet l k v) x = alookup l x := by
  induction l with
  | nil => simp [assocSet, alookup, Ne.symm h]
  | cons p t ih =>
    obtain ⟨a, b⟩ := p
    by_cases h1 : a = k
    · subst h1
      simp [assocSet, alookup, Ne.symm h]
    · simp [assocSet, alookup, h1, ih]

theorem alookup_dictUpdate {α : Type} (base upds : List (String × α)) (x : String)
    (hnodup : (upds.map (fun p => p.1)).Nodup) :
    alookup (dictUpdate base upds) x =
      match alookup upds x with
      | some v => some v
      | none => alookup base x := by
  induction upds generalizing base with
  | nil => rfl
  | cons p t ih =>
    obtain ⟨k0, v0⟩ := p
    simp only [List.map_cons, List.nodup_cons] at hnodup
    have hstep : dictUpdate base ((k0, v0) :: t) = dictUpdate (assocSet base k0 v0) t := rfl
    rw [hstep, ih _ hnodup.2]
    rcases hx : alookup t x with _ | v
    · by_cases he : k0 = x
      · subst he
        simp [alookup, alookup_assocSet_self]
      · simp [alookup, he, hx, alookup_assocSet_other base k0 v0 x (Ne.symm he)]
    · have hmem : x ∈ t.map (fun p => p.1) :=
        List.mem_map_of_mem _ (alookup_mem t x v hx)
      by_cases he : k0 = x
      · subst he
        exact absurd hmem hnodup.1
      · simp [alookup, he, hx]

theorem assocSet_val_mem {α : Type} (l : List (String × α)) (k : String) (v : α)
    (p : String × α) (h : p ∈ assocSet l k v) : p.2 = v ∨ p ∈ l := by
  induction l with
  | nil =>
    simp [assocSet] at h
    subst h
    exact Or.inl rfl
  | cons q t ih =>
    obtain ⟨a, b⟩ := q
    by_cases h1 : a = k
    · subst h1
      simp only [assocSet, if_pos rfl] at h
      rcases List.mem_cons.mp h with h2 | h2
      · subst h2
        exact Or.inl rfl
      · exact Or.inr (List.mem_cons_of_mem _ h2)
    · simp only [assocSet, if_neg h1] at h
      rcases List.mem_cons.mp h with h2 | h2
      · subst h2
        exact Or.inr (List.mem_cons_self _ _)
      · rcases ih h2 with h3 | h3
        · exact Or.inl h3
        · exact Or.inr (List.mem_cons_of_mem _ h3)

theorem dictUpdate_val_mem {α : Type} (base upds : List (String × α))
    (p : String × α) (h : p ∈ dictUpdate base upds) :
    (∃ q ∈ upds, p.2 = q.2) ∨ p ∈ base := by
  induction upds generalizing base with
  | nil => exact Or.inr h
  | cons q t ih =>
    obtain ⟨k0, v0⟩ := q
    have hstep : dictUpdate base ((k0, v0) :: t) = dictUpdate (assocSet base k0 v0) t := rfl
    rw [hstep] at h
    rcases ih (assocSet base k0 v0) h with ⟨q2, hq2, he⟩ | h2
    · exact Or.inl ⟨q2, List.mem_cons_of_mem _ hq2, he⟩
    · rcases assocSet_val_mem base k0 v0 p h2 with h3 | h3
      · exact Or.inl ⟨(k0, v0), List.mem_cons_self _ _, h3⟩
      · exact Or.inr h3

theorem map_pair_eta {α : Type} (l : List (String × α)) :
    l.map (fun p => (p.1, p.2)) = l := by
  induction l with
  | nil => rfl
  | cons p t ih => simp [ih]

theorem defaultsOptionLookup_eq_alookup (dsect : List (String × String))
    (K : String) (hdlow : ∀ p ∈ dsect, strLower p.1 = p.1)
    (hK : strLower K = K) :
    defaultsOptionLookup dsect K = alookup dsect K := by
  induction dsect with
  | nil => rfl
  | cons p t ih =>
    obtain ⟨a, b⟩ := p
    have ha : strLower a = a := hdlow (a, b) (List.mem_cons_self _ _)
    unfold defaultsOptionLookup
    simp only [List.find?]
    rw [ha, hK]
    cases hc : (a == K) with
    | true =>
      have : a = K := by exact of_decide_eq_true hc
      simp [alookup, this]
    | false =>
      have hne : ¬ a = K := by
        intro he
        rw [he] at hc
        simp at hc
      rw [alookup_cons, if_neg hne]
      have ih2 := ih (fun q hq => hdlow q (List.mem_cons_of_mem _ hq))
      unfold defaultsOptionLookup at ih2
      rw [hK] at ih2
      simpa using ih2

theorem coerceVals_good (st : ConfigState) (l : List (String × String))
    (hg : ∀ p ∈ l, GoodVal st p.2) :
    coerceVals st (l.map (fun p => (p.1, some p.2))) =
      Except.ok (l.map (fun p => (p.1, PyVal.pstr p.2))) := by
  induction l with
  | nil => rfl
  | cons p t ih =>
    obtain ⟨a, b⟩ := p
    have hb : coerce1 st b = PyVal.pstr b :=
      (hg (a, b) (List.mem_cons_self _ _)).1
    have ht := ih (fun q hq => hg q (List.mem_cons_of_mem _ hq))
    simp only [List.map_cons]
    unfold coerceVals
    rw [ht, hb]

theorem get_env_var_option_empty (st : ConfigState) (henv : st.env = [])
    (s k : String) : get_env_var_option st s k = (Except.ok none, []) := by
  apply get_env_var_option_missing <;> simp [henv]

theorem get_file_hit (st : ConfigState) (S K v : String)
    (fsect : List (String × String))
    (hS : strLower S = S) (hK : strLower K = K) (hSne : S ≠ "")
    (hdep : deprecated_options S K = none)
    (henv : get_env_var_option st S K = (Except.ok none, []))
    (hfs : alookup st.sections S = some fsect)
    (hv : alookup fsect K = some v)
    (hint : st.interp v = v) :
    get st S K Fallback.absent = (Except.ok (some v), []) := by
  unfold get
  simp only [hS, hK, hdep]
  unfold stage_env stage_file
  rw [henv, super_has_option_eval st S fsect hSne hfs K, hv]
  simp [super_get_eval st S fsect hfs K v hv, effOk, withEffs,
    expand_env_var_fixed st v hint]


/-- Evaluation of `getsection` under an empty environment: defaults merged
with file values, every value kept as a plain string. -/
theorem getsection_eval (st : ConfigState) (S : String)
    (fsect dsect : List (String × String)) (henv : st.env = [])
    (hfs : alookup st.sections S = some fsect)
    (hds : alookup st.airflow_defaults S = some dsect)
    (hgoodf : ∀ p ∈ fsect, GoodVal st p.2)
    (hgoodd : ∀ p ∈ dsect, GoodVal st p.2) :
    getsection st S =
      (Except.ok (some ((dictUpdate dsect fsect).map
        (fun p => (p.1, PyVal.pstr p.2)))), []) := by
  have hgm : ∀ p ∈ dictUpdate dsect fsect, GoodVal st p.2 := by
    intro p hp
    rcases dictUpdate_val_mem dsect fsect p hp with ⟨q, hq, he⟩ | hp2
    · rw [he]
      exact hgoodf q hq
    · exact hgoodd p hp2
  have hkeys : envKeysForSection st ("AIRFLOW__" ++ strUpper S ++ "__") = [] := by
    unfold envKeysForSection
    rw [henv]
    rfl
  unfold getsection
  rw [hfs, hds]
  simp only [Option.isSome_some, Bool.true_and, Option.isNone_some]
  rw [hkeys]
  show (match envScan st S [] ((dictUpdate dsect fsect).map
      (fun p => (p.1, some p.2))) with
    | (Except.error e, effs) => (Except.error e, effs)
    | (Except.ok withEnv, effs) =>
      match coerceVals st withEnv with
      | Except.error e => (Except.error e, effs)
      | Except.ok out => (Except.ok (some out), effs)) = _
  rw [show envScan st S [] ((dictUpdate dsect fsect).map
      (fun p => (p.1, some p.2))) = effOk ((dictUpdate dsect fsect).map
      (fun p => (p.1, some p.2))) from rfl]
  rw [show (effOk ((dictUpdate dsect fsect).map (fun p => (p.1, some p.2))) :
      EffM (List (String × Option String))) =
      (Except.ok ((dictUpdate dsect fsect).map (fun p => (p.1, some p.2))), [])
      from rfl]
  simp only [coerceVals_good st (dictUpdate dsect fsect) hgm]


/-- Every section emitted by `write` holds the printed `getsection`
items. -/
theorem writeSections_lookup (st : ConfigState) :
    ∀ (names : List String) (out : List (String × List (String × String)))
      (effs : List Effect),
    writeSections st names = (Except.ok out, effs) → ∀ Sx ∈ names,
    ∃ items ieffs, getsection st Sx = (Except.ok (some items), ieffs) ∧
      alookup out Sx = some (items.map (fun p => (p.1, pyValStr p.2))) := by
  intro names
  induction names with
  | nil =>
    intro out effs h Sx hmem
    cases hmem
  | cons name rest ih =>
    intro out effs h Sx hmem
    unfold writeSections at h
    rcases hg : getsection st name with ⟨rg, eg⟩
    rw [hg] at h
    cases rg with
    | error e => simp at h
    | ok og =>
      cases og with
      | none => simp at h
      | some items =>
        rcases hrest : writeSections st rest with ⟨rr, er⟩
        rw [hrest] at h
        cases rr with
        | error e => simp at h
        | ok out2 =>
          simp only [Prod.mk.injEq] at h
          obtain ⟨hout, heffs⟩ := h
          have hout2 : out = (name, items.map (fun p => (p.1, pyValStr p.2))) :: out2 := by
            exact (Except.ok.inj hout).symm
          subst hout2
          by_cases hSx : name = Sx
          · subst hSx
            exact ⟨items, eg, hg, by simp [alookup]⟩
          · rcases List.mem_cons.mp hmem with he | hm
            · exact absurd he.symm hSx
            · obtain ⟨items2, ieffs2, hgs2, hlk2⟩ := ih out2 er hrest Sx hm
              exact ⟨items2, ieffs2, hgs2, by rw [alookup_cons, if_neg hSx]; exact hlk2⟩


/-- CLAIM C7 (amended) — writing the configuration and re-parsing the
written INI text yields a parser on which `get` gives exactly the same
result for every key, provided: no environment variables are set, the
queried section exists in both stores, the key has no deprecated-name
mapping and no command/secret indirection entries, default-table keys are
stored lower-case, and every stored value is textual (left unchanged by
the int/float/bool export coercion) and interpolation-free.  Without the
textuality condition the round trip rewrites values to their coerced
spelling (see the counterexample), and the `_validate` run of a full
re-load may additionally migrate deprecated values or reject the store. -/
theorem claim_C7_round_trip (st : ConfigState) (S K : String)
    (fsect dsect : List (String × String))
    (written : List (String × List (String × String))) (weffs : List Effect)
    (hS : strLower S = S) (hK : strLower K = K) (hSne : S ≠ "")
    (henv : st.env = [])
    (hdep : deprecated_options S K = none)
    (hfs : alookup st.sections S = some fsect)
    (hds : alookup st.airflow_defaults S = some dsect)
    (hnodupf : (fsect.map (fun p => p.1)).Nodup)
    (hdlow : ∀ p ∈ dsect, strLower p.1 = p.1)
    (hgoodf : ∀ p ∈ fsect, GoodVal st p.2)
    (hgoodd : ∀ p ∈ dsect, GoodVal st p.2)
    (hfc : alookup fsect (K ++ "_cmd") = none)
    (hfsec : alookup fsect (K ++ "_secret") = none)
    (hdc : alookup dsect (K ++ "_cmd") = none)
    (hdsec : alookup dsect (K ++ "_secret") = none)
    (hw : write st = (Except.ok written, weffs)) :
    get (reparse st written) S K Fallback.absent = get st S K Fallback.absent := by
  have hgs := getsection_eval st S fsect dsect henv hfs hds hgoodf hgoodd
  have hmemS : S ∈ st.sections.map (fun p => p.1) :=
    List.mem_map_of_mem _ (alookup_mem st.sections S fsect hfs)
  obtain ⟨items, ieffs, hgs2, hwl⟩ :=
    writeSections_lookup st (st.sections.map (fun p => p.1)) written weffs
      (show writeSections st (st.sections.map (fun p => p.1)) =
        (Except.ok written, weffs) from hw) S hmemS
  rw [hgs] at hgs2
  have hitems : items = (dictUpdate dsect fsect).map (fun p => (p.1, PyVal.pstr p.2)) := by
    simp only [Prod.mk.injEq] at hgs2
    exact ((Option.some.inj (Except.ok.inj hgs2.1))).symm
  have hwl2 : alookup written S = some (dictUpdate dsect fsect) := by
    rw [hwl, hitems]
    congr 1
    rw [List.map_map]
    exact map_pair_eta _
  have hrfs : alookup (reparse st written).sections S = some (dictUpdate dsect fsect) :=
    hwl2
  have henvoptL : get_env_var_option st S K = (Except.ok none, []) :=
    get_env_var_option_empty st henv S K
  have henvoptR : get_env_var_option (reparse st written) S K = (Except.ok none, []) :=
    get_env_var_option_empty (reparse st written) henv S K
  have hda := defaultsOptionLookup_eq_alookup dsect K hdlow hK
  have hmca : alookup (dictUpdate dsect fsect) (K ++ "_cmd") = none := by
    rw [alookup_dictUpdate dsect fsect _ hnodupf]
    simp [hfc, hdc]
  have hmsa : alookup (dictUpdate dsect fsect) (K ++ "_secret") = none := by
    rw [alookup_dictUpdate dsect fsect _ hnodupf]
    simp [hfsec, hdsec]
  rcases hlk : alookup fsect K with _ | w
  · have hcmdL : get_cmd_option st S K = effOk none :=
      get_cmd_option_skip st S K
        (super_has_option_missing st S (K ++ "_cmd") fsect hSne hfs hfc)
    have hsecL : get_secret_option st S K = effOk none :=
      get_secret_option_skip st S K
        (super_has_option_missing st S (K ++ "_secret") fsect hSne hfs hfsec)
    have hcmdR : get_cmd_option (reparse st written) S K = effOk none :=
      get_cmd_option_skip _ S K
        (super_has_option_missing _ S (K ++ "_cmd") _ hSne hrfs hmca)
    have hsecR : get_secret_option (reparse st written) S K = effOk none :=
      get_secret_option_skip _ S K
        (super_has_option_missing _ S (K ++ "_secret") _ hSne hrfs hmsa)
    rcases hdlk : alookup dsect K with _ | u
    · have hdaun : defaultsOptionLookup dsect K = none := by rw [hda]; exact hdlk
      have hmkn : alookup (dictUpdate dsect fsect) K = none := by
        rw [alookup_dictUpdate dsect fsect K hnodupf]
        simp [hlk, hdlk]
      rw [chain_to_default st S K Fallback.absent fsect [] [] [] none none
        hS hK hSne hdep hfs henvoptL hlk hcmdL rfl hsecL rfl]
      rw [chain_to_default (reparse st written) S K Fallback.absent
        (dictUpdate dsect fsect) [] [] [] none none
        hS hK hSne hdep hrfs henvoptR hmkn hcmdR rfl hsecR rfl]
      have hdsR : alookup (reparse st written).airflow_defaults S = some dsect := hds
      rw [(stage_default_miss st S K dsect hSne hds hdaun).1,
          (stage_default_miss (reparse st written) S K dsect hSne hdsR hdaun).1]
    · have hdau : defaultsOptionLookup dsect K = some u := by rw [hda]; exact hdlk
      have hgu := hgoodd (K, u) (alookup_mem dsect K u hdlk)
      have hmk : alookup (dictUpdate dsect fsect) K = some u := by
        rw [alookup_dictUpdate dsect fsect K hnodupf]
        simp [hlk, hdlk]
      rw [chain_to_default st S K Fallback.absent fsect [] [] [] none none
        hS hK hSne hdep hfs henvoptL hlk hcmdL rfl hsecL rfl]
      rw [get_file_hit (reparse st written) S K u _ hS hK hSne hdep henvoptR
        hrfs hmk hgu.2]
      rw [stage_default_hit st S K dsect u hSne hds hdau Fallback.absent]
      simp [withEffs, expand_env_var_fixed st u hgu.2]
  · have hw_mem := alookup_mem fsect K w hlk
    have hgw := hgoodf (K, w) hw_mem
    have hmk : alookup (dictUpdate dsect fsect) K = some w := by
      rw [alookup_dictUpdate dsect fsect K hnodupf]
      simp [hlk]
    rw [get_file_hit st S K w fsect hS hK hSne hdep henvoptL hfs hlk hgw.2,
        get_file_hit (reparse st written) S K w _ hS hK hSne hdep henvoptR
          hrfs hmk hgw.2]


/-- CLAIM C7 counterexample — the export path coerces values through
Python `int` / `float` / `bool`: the resolvable file value `t` is written
back as `True`, so the full round trip (write, re-read, re-validate)
changes what `get` returns. -/
theorem claim_C7_counterexample :
    get stC7 "core" "mykey" Fallback.absent = (Except.ok (some "t"), []) ∧
    (roundTrip stC7).1 = none ∧
    get (roundTrip stC7).2.1 "core" "mykey" Fallback.absent =
      (Except.ok (some "True"), []) ∧
    "t" ≠ "True" := by
  decide

/-- Witness for the amended C7 at a concrete store. -/
theorem claim_C7_witness :
    get (reparse stC7w [("core", [("dkey", "world"), ("mykey", "hello")])])
      "core" "mykey" Fallback.absent =
      get stC7w "core" "mykey" Fallback.absent := by
  refine claim_C7_round_trip stC7w "core" "mykey"
    [("mykey", "hello")] [("dkey", "world")]
    [("core", [("dkey", "world"), ("mykey", "hello")])] []
    (by decide) (by decide) (by decide) rfl (by decide) (by decide) (by decide)
    (by decide) ?_ ?_ ?_ (by decide) (by decide) (by decide) (by decide)
    (by decide)
  · intro p hp
    simp only [List.mem_singleton] at hp
    subst hp
    decide
  · intro p hp
    simp only [List.mem_singleton] at hp
    subst hp
    constructor
    · decide
    · rfl
  · intro p hp
    simp only [List.mem_singleton] at hp
    subst hp
    constructor
    · decide
    · rfl


end AirflowCfg
